import Mathlib

/-!
Verification development for the meta-ads-mcp repository.

The repository is a thin adapter exposing Meta Marketing Graph API objects
as callable tools.  Each tool validates required parameters, builds a
parameter mapping, issues one or more calls to an HTTP shim, and reshapes
the JSON response.  This file gives a shallow embedding of the tool
functions of `core/campaigns.py`, `core/adsets.py` and `core/insights.py`
and proves the frozen claims about them.

Embedding conventions:
* JSON values are modelled by the inductive type `JValue`; Python numbers
  (int/float) are modelled by exact rationals.
* `json.dumps` followed by `json.loads` between a tool and its caller is
  modelled as the identity, so tools pass `JValue`s directly.
* The HTTP shim (`make_api_request` / `make_batch_api_request`, whose
  source `core/api.py` is not under src/) is modelled as an oracle: a
  function from the issued call to either a parsed JSON response or a
  raised exception (`Except.error`).  Every issued call is recorded in a
  trace so that "no outbound call was made" is expressible.
* Python exceptions raised inside a tool body (KeyError, TypeError,
  AttributeError, shim errors, ...) are modelled by `Except.error` with an
  informal message (exception messages are approximations, their exact
  text is not load-bearing); the `@meta_api_tool` decorator boundary
  (source not under src/) is modelled from the spec as converting any
  escaped exception into an `error`-keyed JSON object.
* `access_token` plumbing is out of scope per the spec and is omitted
  from the modelled signatures.  The wall clock used by `create_adset`'s
  `start_time` default is modelled as a field of the oracle.
-/

namespace MetaAds

/-- Model of a parsed JSON value (the values Python's `json.loads` produces
and the tool functions manipulate).  Numbers are exact rationals. -/
inductive JValue where
  | jnull
  | jbool (b : Bool)
  | jnum (q : ℚ)
  | jstr (s : String)
  | jarr (xs : List JValue)
  | jobj (fs : List (String × JValue))

namespace JValue

/-- Key lookup on an object; `none` on non-objects or missing keys. -/
def get? : JValue → String → Option JValue
  | .jobj fs, k => fs.lookup k
  | _, _ => none

/-- Whether an object value carries the given key. -/
def hasKey (v : JValue) (k : String) : Bool := (v.get? k).isSome

end JValue

/-- Python truthiness of a JSON value (`bool(v)`). -/
def pyTruthy : JValue → Bool
  | .jnull => false
  | .jbool b => b
  | .jnum q => q != 0
  | .jstr s => s != ""
  | .jarr xs => !xs.isEmpty
  | .jobj fs => !fs.isEmpty

/-- Python `k in v` for a string `k`: key membership for dicts, element
membership for lists (string elements compared by value, a string never
equals a non-string), substring test for strings; `TypeError` otherwise. -/
def pyIn (k : String) : JValue → Except String Bool
  | .jobj fs => .ok (fs.lookup k).isSome
  | .jarr xs => .ok (xs.any (fun x => match x with | .jstr t => t == k | _ => false))
  | .jstr t => .ok (if k == "" then true else decide ((t.splitOn k).length ≥ 2))
  | _ => .error "TypeError: argument is not iterable"

/-- Python `v[k]` for a string key: dict lookup raising `KeyError` when the
key is absent, `TypeError` on non-dicts. -/
def pyIndexKey (v : JValue) (k : String) : Except String JValue :=
  match v with
  | .jobj fs =>
    match fs.lookup k with
    | some x => .ok x
    | none => .error ("KeyError: " ++ k)
  | _ => .error "TypeError: value is not subscriptable by a string"

/-- Python `v.get(k)` on a dict (`None` when the key is absent);
`AttributeError` on non-dicts. -/
def pyGetAttr (v : JValue) (k : String) : Except String (Option JValue) :=
  match v with
  | .jobj fs => .ok (fs.lookup k)
  | _ => .error "AttributeError: object has no attribute get"

/-- Python `v.get(k, d)` on a dict; `AttributeError` on non-dicts. -/
def pyGetAttrD (v : JValue) (k : String) (d : JValue) : Except String JValue :=
  match v with
  | .jobj fs => .ok ((fs.lookup k).getD d)
  | _ => .error "AttributeError: object has no attribute get"

/-- Python dict assignment `d[k] = x` on the underlying association list:
replace the first binding if the key is present, append it otherwise. -/
def dictSet : List (String × JValue) → String → JValue → List (String × JValue)
  | [], k, x => [(k, x)]
  | (k', v') :: rest, k, x =>
    if k' == k then (k, x) :: rest else (k', v') :: dictSet rest k x

/-- Python item assignment `v[k] = x`; `TypeError` on non-dicts. -/
def pySetKey (v : JValue) (k : String) (x : JValue) : Except String JValue :=
  match v with
  | .jobj fs => .ok (.jobj (dictSet fs k x))
  | _ => .error "TypeError: item assignment on non-dict"

/-- Iterating a Python value as a list of JSON values; only lists are
modelled as iterable (string iteration yields characters in Python and is
outside the modelled fragment). -/
def asList (v : JValue) : Except String (List JValue) :=
  match v with
  | .jarr xs => .ok xs
  | _ => .error "TypeError: value is not iterable"

/-- Extracting a Python string; raises on other values.  In the source the
corresponding positions format arbitrary values with f-strings, but every
claim concerns string-valued ids and names, so non-string values there are
outside the modelled fragment. -/
def asStr (v : JValue) : Except String String :=
  match v with
  | .jstr s => .ok s
  | _ => .error "modelled fragment: expected a string value"

/-- Python `len(v)` for strings, lists and dicts; `TypeError` otherwise. -/
def pyLen (v : JValue) : Except String ℕ :=
  match v with
  | .jstr s => .ok s.length
  | .jarr xs => .ok xs.length
  | .jobj fs => .ok fs.length
  | _ => .error "TypeError: object has no len"

/-! ### Python string and number primitives

Core `String.trim` / `String.startsWith` do not reduce definitionally, so
the handful of string primitives the tools need are implemented directly
on the character list. -/

/-- Whitespace for Python's `str.strip`. -/
def isSpaceChar (c : Char) : Bool := c == ' ' || c == '\t' || c == '\n' || c == '\r'

/-- Python `s.strip()` (whitespace modelled as space/tab/newline/return). -/
def pyStrip (s : String) : String :=
  ⟨((s.data.dropWhile isSpaceChar).reverse.dropWhile isSpaceChar).reverse⟩

/-- Python `s.startswith(p)`. -/
def strStarts (s p : String) : Bool := p.data.isPrefixOf s.data

/-- Numeric value of a digit list (most significant first). -/
def digitsVal (cs : List Char) : ℕ := cs.foldl (fun a c => a * 10 + (c.toNat - 48)) 0

/-- Split a character list at the first dot; `none` when more than one dot
occurs. -/
def splitDot : List Char → List Char → Option (List Char × Option (List Char))
  | [], acc => some (acc.reverse, none)
  | '.' :: rest, acc => if rest.contains '.' then none else some (acc.reverse, some rest)
  | c :: rest, acc => splitDot rest (c :: acc)

/-- Python `float(s)` on a string: an optional sign followed by a decimal
literal (`12`, `12.`, `12.5`, `.5`).  Surrounding whitespace, exponents and
`inf`/`nan` forms are outside the modelled fragment. -/
def pyFloatOfString (s : String) : Option ℚ :=
  let p : ℚ × List Char :=
    match s.data with
    | '-' :: r => (-1, r)
    | '+' :: r => (1, r)
    | r => (1, r)
  match splitDot p.2 [] with
  | none => none
  | some (ip, none) =>
    if !ip.isEmpty && ip.all Char.isDigit then some (p.1 * digitsVal ip) else none
  | some (ip, some fp) =>
    if (!ip.isEmpty || !fp.isEmpty) && ip.all Char.isDigit && fp.all Char.isDigit then
      some (p.1 * ((digitsVal ip : ℚ) + (digitsVal fp : ℚ) / (10 : ℚ) ^ fp.length))
    else none

/-- Python `int(s)` on a string: an optional sign followed by digits. -/
def pyIntOfString (s : String) : Option ℤ :=
  let p : ℤ × List Char :=
    match s.data with
    | '-' :: r => (-1, r)
    | '+' :: r => (1, r)
    | r => (1, r)
  if !p.2.isEmpty && p.2.all Char.isDigit then some (p.1 * digitsVal p.2) else none

/-- Truncation of a rational toward zero (Python `int(float)`). -/
def ratTrunc (q : ℚ) : ℤ := if 0 ≤ q then ⌊q⌋ else ⌈q⌉

/-- Python `float(v)` on a JSON value: strings are parsed, numbers pass
through, booleans coerce to 0/1; everything else raises (modelled as
`none`, matching the `except (ValueError, TypeError)` handlers in the
source that coerce a failed conversion to a zero contribution). -/
def pyFloat : JValue → Option ℚ
  | .jstr s => pyFloatOfString s
  | .jnum q => some q
  | .jbool b => some (if b then 1 else 0)
  | _ => none

/-- Python `int(v)` on a JSON value, same conventions as `pyFloat`. -/
def pyInt : JValue → Option ℤ
  | .jstr s => pyIntOfString s
  | .jnum q => some (ratTrunc q)
  | .jbool b => some (if b then 1 else 0)
  | _ => none

/-- Round-half-to-even on rationals (Python's `round` tie-breaking; the
binary-floating-point representation error of CPython floats is not
modelled — totals are exact rationals here). -/
def roundHalfEven (q : ℚ) : ℤ :=
  let f := ⌊q⌋
  if q - f < 1 / 2 then f
  else if 1 / 2 < q - f then f + 1
  else if f % 2 = 0 then f else f + 1

/-- Python `round(x, 2)` over exact rationals. -/
def pyRound2 (q : ℚ) : ℚ := (roundHalfEven (q * 100) : ℚ) / 100

/-! ### `json.dumps`

Rendering of a JSON value to text, as Python's `json.dumps` with default
separators.  Escaping is modelled for quote, backslash and the common
control characters; `\uXXXX` escapes of other control characters are not
modelled.  Non-integral numbers render as `num/den`, a placeholder: no
value dumped in this development (field names, enum strings, id lists,
targeting specs) contains a non-integral number. -/

/-- Escape one character for a JSON string literal. -/
def jsonEscapeChar (c : Char) : String :=
  if c == '"' then "\\\""
  else if c == '\\' then "\\\\"
  else if c == '\n' then "\\n"
  else if c == '\t' then "\\t"
  else if c == '\r' then "\\r"
  else String.singleton c

/-- Escape a string for a JSON string literal. -/
def jsonEscape (s : String) : String := s.data.foldl (fun a c => a ++ jsonEscapeChar c) ""

/-- Render a rational as a JSON number (see section comment). -/
def ratToJsonString (q : ℚ) : String :=
  if q.den = 1 then toString q.num else toString q.num ++ "/" ++ toString q.den

mutual

/-- Python `json.dumps(v)` with the default `", "` / `": "` separators. -/
def pyJsonDumps : JValue → String
  | .jnull => "null"
  | .jbool true => "true"
  | .jbool false => "false"
  | .jnum q => ratToJsonString q
  | .jstr s => "\"" ++ jsonEscape s ++ "\""
  | .jarr xs => "[" ++ pyJsonDumpsList xs ++ "]"
  | .jobj fs => "\x7b" ++ pyJsonDumpsObj fs ++ "\x7d"

/-- Comma-separated rendering of array elements. -/
def pyJsonDumpsList : List JValue → String
  | [] => ""
  | [x] => pyJsonDumps x
  | x :: y :: rest => pyJsonDumps x ++ ", " ++ pyJsonDumpsList (y :: rest)

/-- Comma-separated rendering of object entries. -/
def pyJsonDumpsObj : List (String × JValue) → String
  | [] => ""
  | [(k, v)] => "\"" ++ jsonEscape k ++ "\": " ++ pyJsonDumps v
  | (k, v) :: e :: rest =>
    "\"" ++ jsonEscape k ++ "\": " ++ pyJsonDumps v ++ ", " ++ pyJsonDumpsObj (e :: rest)

end

/-- Python `json.dumps` applied to an optional value (`None` dumps to the
literal string `"null"`). -/
def pyJsonDumpsOpt : Option JValue → String
  | none => "null"
  | some v => pyJsonDumps v

/-- Python `str(v)` as used in f-string interpolations of the source's
error messages.  The `repr`-style rendering of containers is approximated
by their JSON rendering; no claim depends on that text. -/
def pyStr : JValue → String
  | .jnull => "None"
  | .jbool true => "True"
  | .jbool false => "False"
  | .jnum q => ratToJsonString q
  | .jstr s => s
  | .jarr xs => pyJsonDumps (.jarr xs)
  | .jobj fs => pyJsonDumps (.jobj fs)

/-! ### The HTTP shim oracle and the tool monad -/

/-- One sub-request of the vendor's batching facility (spec section 6). -/
structure BatchReq where
  method : String
  relative_url : String

/-- An outbound call to the HTTP shim. -/
inductive Call where
  | api (endpoint : String) (params : List (String × JValue)) (method : String)
  | batch (reqs : List BatchReq)

/-- One sub-response of a batched request, per the shim contract of spec
section 6: a `code` and a JSON-encoded string `body`.  The body is carried
both as raw text (`bodyStr`, used verbatim in error details) and as its
parse result (`bodyJson`, `none` when the text is not valid JSON), a
shallow embedding of "a string that either parses or raises
`json.JSONDecodeError`". -/
structure BatchItem where
  code : Option ℤ
  bodyStr : Option String
  bodyJson : Option JValue

/-- The environment of a tool invocation: the HTTP shim (modelled from the
spec, `core/api.py` not being under src/) and the wall clock. `api` maps an
endpoint, parameter mapping and method to a parsed JSON response or a
raised exception; `batchApi` likewise for the batched variant. -/
structure Oracle where
  api : String → List (String × JValue) → String → Except String JValue
  batchApi : List BatchReq → Except String (List BatchItem)
  utcnow : String

/-- The tool monad: a computation that may raise a Python exception and
records every outbound shim call in order. -/
def ToolM (α : Type) : Type := List Call → Except String α × List Call

instance instMonadToolM : Monad ToolM where
  pure a := fun t => (.ok a, t)
  bind m f := fun t =>
    match m t with
    | (.ok a, t') => f a t'
    | (.error e, t') => (.error e, t')

/-- Lift a possibly-raising pure step into the tool monad. -/
def liftE {α : Type} (e : Except String α) : ToolM α := fun t => (e, t)

/-- Modelled from the spec: `make_api_request` of `core/api.py` (not under
src/) performs a single authenticated call and returns parsed JSON or
raises (spec section 6).  The call is recorded in the trace whether or not
it succeeds. -/
def makeApiRequest (o : Oracle) (endpoint : String) (params : List (String × JValue))
    (method : String) : ToolM JValue :=
  fun t => (o.api endpoint params method, t ++ [.api endpoint params method])

/-- Modelled from the spec: `make_batch_api_request` of `core/api.py` (not
under src/), the shim's batched variant (spec section 6). -/
def makeBatchApiRequest (o : Oracle) (reqs : List BatchReq) : ToolM (List BatchItem) :=
  fun t => (o.batchApi reqs, t ++ [.batch reqs])

/-- Run an already-run tool as a sub-call of an orchestrator, merging its
trace (decorated tools never raise, they return error objects). -/
def subTool (p : JValue × List Call) : ToolM JValue := fun t => (.ok p.1, t ++ p.2)

/-- Python `try`/`except Exception`: the handler sees the exception, calls
made before the exception stay in the trace. -/
def toolTry {α : Type} (m : ToolM α) (h : String → ToolM α) : ToolM α := fun t =>
  match m t with
  | (.ok a, t') => (.ok a, t')
  | (.error e, t') => h e t'

/-- A `{error: msg}` JSON object. -/
def errObj (msg : String) : JValue := .jobj [("error", .jstr msg)]

/-- Modelled from the spec: the `@meta_api_tool` decorator boundary of
`core/api.py` (not under src/) catches any exception escaping a tool body
and converts it to an object containing at least an `error` string and the
exception text (spec sections 4.1 and 7: "never raises past the
boundary"). -/
def decoratorError (msg : String) : JValue :=
  .jobj [("error", .jstr "API request failed"), ("details", .jstr msg)]

/-- Run a tool body under the decorator boundary, from an empty trace. -/
def runTool (m : ToolM JValue) : JValue × List Call :=
  match m [] with
  | (.ok v, t) => (v, t)
  | (.error e, t) => (decoratorError e, t)

/-- Falsiness of an optional string argument (`not arg` for an
argument that is `None` or empty). -/
def blank : Option String → Bool
  | none => true
  | some s => s == ""

/-- The string value of an optional argument known to be present. -/
def optStr (o : Option String) : String := o.getD ""

/-- The guard `name_contains and name_contains.strip()`. -/
def ncProvided : Option String → Bool
  | none => false
  | some s => s != "" && pyStrip s != ""

/-- Mere truthiness of `name_contains` (the later checks in the
orchestrators test only `if name_contains`, without stripping). -/
def ncTruthy : Option String → Bool
  | none => false
  | some s => s != ""

/-! ### Field-list constants (verbatim from the source) -/

/-- Field list of `get_campaigns`. -/
def campaignsListFields : String :=
  "id,name,objective,status,daily_budget,lifetime_budget,buying_type,start_time,stop_time,created_time,updated_time,bid_strategy,source_campaign_id,budget_remaining,spend_cap"

/-- Field list of `get_campaign_details` (both branches). -/
def campaignDetailsFields : String :=
  "id,name,objective,status,daily_budget,lifetime_budget,buying_type,start_time,stop_time,created_time,updated_time,bid_strategy,special_ad_categories,special_ad_category_country,budget_remaining,configured_status,source_campaign_id,spend_cap"

/-- Field list of `get_adsets` (both branches). -/
def adsetsListFields : String :=
  "id,name,campaign_id,status,daily_budget,lifetime_budget,targeting,bid_amount,bid_strategy,optimization_goal,billing_event,start_time,end_time,created_time,updated_time,frequency_control_specs\x7bevent,interval_days,max_frequency\x7d,promoted_object,learning_stage_info"

/-- Field list of `get_adset_details`. -/
def adsetDetailsFields : String :=
  "id,name,campaign_id,status,frequency_control_specs\x7bevent,interval_days,max_frequency\x7d,daily_budget,lifetime_budget,targeting,bid_amount,bid_strategy,optimization_goal,billing_event,start_time,end_time,created_time,updated_time,attribution_spec,destination_type,promoted_object,pacing_type,budget_remaining,dsa_beneficiary"

/-- Field list of `get_insights`. -/
def insightsFields : String :=
  "account_id,account_name,campaign_id,campaign_name,adset_id,adset_name,ad_id,ad_name,impressions,clicks,spend,cpc,cpm,ctr,reach,frequency,actions,action_values,conversions,unique_clicks,cost_per_action_type,date_start,date_stop"

/-- The `filtering` value built for a `campaign_ids` filter. -/
def campaignIdFilter (ids : List String) : JValue :=
  .jarr [.jobj [("field", .jstr "campaign.id"), ("operator", .jstr "IN"),
                ("value", .jarr (ids.map .jstr))]]

/-- The `filtering` value built for a name-substring search. -/
def nameContainFilter (v : String) : JValue :=
  .jarr [.jobj [("field", .jstr "name"), ("operator", .jstr "CONTAIN"), ("value", .jstr v)]]

/-! ### Per-resource request builders -/

/-- Embeds `get_campaigns` (campaigns.py lines 11-53). -/
def get_campaigns (o : Oracle) (account_id : Option String) (limit : ℤ) (status_filter : String)
    (after : String) (campaign_ids : Option (List String)) : JValue × List Call :=
  runTool <| do
    if blank account_id then
      pure (errObj "No account ID specified")
    else do
      let params := [("fields", JValue.jstr campaignsListFields), ("limit", JValue.jnum (limit : ℚ))]
      let params := if status_filter != "" then
          dictSet params "effective_status" (.jstr (pyJsonDumps (.jarr [.jstr status_filter])))
        else params
      let params := if after != "" then dictSet params "after" (.jstr after) else params
      let params := match campaign_ids with
        | some ids => dictSet params "filtering" (.jstr (pyJsonDumps (campaignIdFilter ids)))
        | none => params
      makeApiRequest o (optStr account_id ++ "/campaigns") params "GET"

/-- Embeds `get_campaign_details` (campaigns.py lines 56-89): by-id fetch
or name-substring search; the response is returned as-is in both cases. -/
def get_campaign_details (o : Oracle) (account_id campaign_id name_contains : Option String) :
    JValue × List Call :=
  runTool <| do
    if blank account_id then
      pure (errObj "account_id is required")
    else if ncProvided name_contains then
      let params := [("fields", JValue.jstr campaignDetailsFields),
                     ("filtering", JValue.jstr (pyJsonDumps (nameContainFilter (pyStrip (optStr name_contains)))))]
      makeApiRequest o (optStr account_id ++ "/campaigns") params "GET"
    else if blank campaign_id then
      pure (errObj "Either campaign_id or name_contains must be provided")
    else
      makeApiRequest o (optStr campaign_id) [("fields", JValue.jstr campaignDetailsFields)] "GET"

/-- The Python idiom `if arg is not None: params[k] = str(arg)` (string
arguments: `str` is the identity). -/
def setOpt (ps : List (String × JValue)) (k : String) : Option String → List (String × JValue)
  | some b => dictSet ps k (.jstr b)
  | none => ps

/-- The Python idiom `if arg: params[k] = arg` (`None` and the empty string
are both skipped). -/
def setTruthy (ps : List (String × JValue)) (k : String) : Option String → List (String × JValue)
  | some b => if b != "" then dictSet ps k (.jstr b) else ps
  | none => ps

/-- The Python idiom
`if arg is not None: params[k] = "true" if arg else "false"`. -/
def setBoolTF (ps : List (String × JValue)) (k : String) : Option Bool → List (String × JValue)
  | some b => dictSet ps k (.jstr (if b then "true" else "false"))
  | none => ps

/-- The Python idiom `if arg: params[k] = json.dumps(arg)` for a
dict/list-valued argument (`None` and empty containers are skipped). -/
def setDumpsTruthy (ps : List (String × JValue)) (k : String) :
    Option JValue → List (String × JValue)
  | some p => if pyTruthy p then dictSet ps k (.jstr (pyJsonDumps p)) else ps
  | none => ps

/-- The outbound parameter mapping of `create_campaign` (campaigns.py lines
144-174).  Budget/cap arguments reach the mapping through `str(...)`; they
are modelled as the strings the caller passes (per the tool's docstring
they are strings already, and `str` is the identity on strings). -/
def createCampaignParams (name objective : String) (sac : List String)
    (special_ad_category_country daily_budget lifetime_budget buying_type : Option String)
    (bid_strategy bid_cap spend_cap : Option String) (campaign_budget_optimization : Option Bool) :
    List (String × JValue) :=
  let ps := [("name", JValue.jstr name), ("objective", JValue.jstr objective),
             ("status", JValue.jstr "PAUSED"),
             ("special_ad_categories", JValue.jstr (pyJsonDumps (.jarr (sac.map .jstr))))]
  let ps := setOpt ps "daily_budget" daily_budget
  let ps := setOpt ps "lifetime_budget" lifetime_budget
  let ps := setBoolTF ps "campaign_budget_optimization" campaign_budget_optimization
  let ps := setTruthy ps "buying_type" buying_type
  let ps := setOpt ps "bid_strategy" bid_strategy
  let ps := setOpt ps "bid_cap" bid_cap
  let ps := setOpt ps "spend_cap" spend_cap
  setTruthy ps "special_ad_category_country" special_ad_category_country

/-- Embeds `create_campaign` (campaigns.py lines 92-190).  Enum-typed
arguments are modelled as their string values (`getattr(x, 'value', x)` is
the identity on the strings the protocol passes). -/
def create_campaign (o : Oracle) (account_id name objective : Option String)
    (special_ad_categories : Option (List String)) (special_ad_category_country : Option String)
    (daily_budget lifetime_budget buying_type bid_strategy bid_cap spend_cap : Option String)
    (campaign_budget_optimization : Option Bool) : JValue × List Call :=
  runTool <| do
    if blank account_id then pure (errObj "No account ID provided")
    else if blank name then pure (errObj "No campaign name provided")
    else if blank objective then pure (errObj "No campaign objective provided")
    else do
      let sac := special_ad_categories.getD []
      let params := createCampaignParams (optStr name) (optStr objective) sac
        special_ad_category_country daily_budget lifetime_budget buying_type
        bid_strategy bid_cap spend_cap campaign_budget_optimization
      toolTry
        (do
          let data ← makeApiRequest o (optStr account_id ++ "/campaigns") params "POST"
          let hasName ← liftE (pyIn "name" data)
          if hasName then do
            let nv ← liftE (pyGetAttr data "name")
            if !pyTruthy (nv.getD .jnull) then
              liftE (pySetKey data "name" (.jstr (optStr name)))
            else pure data
          else
            liftE (pySetKey data "name" (.jstr (optStr name))))
        (fun e => pure (.jobj [("error", .jstr "Failed to create campaign"),
                               ("details", .jstr e), ("params_sent", .jobj params)]))

/-- The outbound parameter mapping of `update_campaign` (campaigns.py lines
236-294), including the `use_adset_level_budgets` budget-strategy
branches. -/
def updateCampaignParams (name status : Option String) (special_ad_categories : Option (List String))
    (daily_budget lifetime_budget bid_strategy bid_cap spend_cap objective : Option String)
    (campaign_budget_optimization : Option Bool) (use_adset_level_budgets : Option Bool) :
    List (String × JValue) :=
  let ps : List (String × JValue) := []
  let ps := setOpt ps "name" name
  let ps := setOpt ps "status" status
  let ps := match special_ad_categories with
    | some l => dictSet ps "special_ad_categories" (.jstr (pyJsonDumps (.jarr (l.map .jstr))))
    | none => ps
  let ps := match use_adset_level_budgets with
    | some true =>
      let ps := dictSet ps "daily_budget" (.jstr "")
      let ps := dictSet ps "lifetime_budget" (.jstr "")
      match campaign_budget_optimization with
      | some _ => dictSet ps "campaign_budget_optimization" (.jstr "false")
      | none => ps
    | some false =>
      let ps := setOpt ps "daily_budget" daily_budget
      let ps := setOpt ps "lifetime_budget" lifetime_budget
      setBoolTF ps "campaign_budget_optimization" campaign_budget_optimization
    | none =>
      let ps := setOpt ps "daily_budget" daily_budget
      let ps := setOpt ps "lifetime_budget" lifetime_budget
      setBoolTF ps "campaign_budget_optimization" campaign_budget_optimization
  let ps := setOpt ps "bid_strategy" bid_strategy
  let ps := setOpt ps "bid_cap" bid_cap
  let ps := setOpt ps "spend_cap" spend_cap
  setOpt ps "objective" objective

/-- The note text of the ad-set-level-budget switch. -/
def adsetBudgetNote : String :=
  "Campaign updated to use ad set level budgets. Set budgets when creating ad sets within this campaign."

/-- Embeds `update_campaign` (campaigns.py lines 193-324): POST the update,
echo `campaign_id` back, then a follow-up GET solely to backfill `name`. -/
def update_campaign (o : Oracle) (campaign_id name status : Option String)
    (special_ad_categories : Option (List String))
    (daily_budget lifetime_budget bid_strategy bid_cap spend_cap : Option String)
    (campaign_budget_optimization : Option Bool) (objective : Option String)
    (use_adset_level_budgets : Option Bool) : JValue × List Call :=
  runTool <| do
    if blank campaign_id then pure (errObj "No campaign ID provided")
    else do
      let cid := optStr campaign_id
      let params := updateCampaignParams name status special_ad_categories daily_budget
        lifetime_budget bid_strategy bid_cap spend_cap objective
        campaign_budget_optimization use_adset_level_budgets
      if params.isEmpty then pure (errObj "No update parameters provided")
      else
        toolTry
          (do
            let data ← makeApiRequest o cid params "POST"
            let data ← liftE (pySetKey data "campaign_id" (.jstr cid))
            let details ← makeApiRequest o cid [("fields", JValue.jstr "name")] "GET"
            let hasName ← liftE (pyIn "name" details)
            let data ←
              if hasName then do
                let nv ← liftE (pyIndexKey details "name")
                liftE (pySetKey data "name" nv)
              else pure data
            match use_adset_level_budgets with
            | some true => do
              let data ← liftE (pySetKey data "budget_strategy" (.jstr "ad_set_level"))
              liftE (pySetKey data "note" (.jstr adsetBudgetNote))
            | _ => pure data)
          (fun e => pure (.jobj [("error", .jstr ("Failed to update campaign " ++ cid)),
                                 ("details", .jstr e), ("params_sent", .jobj params)]))

/-- Embeds `get_adsets` (adsets.py lines 12-46): campaign-scoped or
account-scoped listing. -/
def get_adsets (o : Oracle) (account_id : Option String) (limit : ℤ) (campaign_id : String) :
    JValue × List Call :=
  runTool <| do
    if blank account_id then pure (errObj "No account ID specified")
    else
      let params := [("fields", JValue.jstr adsetsListFields), ("limit", JValue.jnum (limit : ℚ))]
      if campaign_id != "" then
        makeApiRequest o (campaign_id ++ "/adsets") params "GET"
      else
        makeApiRequest o (optStr account_id ++ "/adsets") params "GET"

/-- The `_meta` note `get_adset_details` adds when the response lacks
`frequency_control_specs`. -/
def adsetMetaNote : JValue :=
  .jobj [("note", .jstr "No frequency_control_specs field was returned by the API. This means either no frequency caps are set or the API did not include this field in the response.")]

/-- Embeds `get_adset_details` (adsets.py lines 49-82). -/
def get_adset_details (o : Oracle) (adset_id : Option String) : JValue × List Call :=
  runTool <| do
    if blank adset_id then pure (errObj "No ad set ID provided")
    else do
      let data ← makeApiRequest o (optStr adset_id) [("fields", JValue.jstr adsetDetailsFields)] "GET"
      let hasF ← liftE (pyIn "frequency_control_specs" data)
      if !hasF then liftE (pySetKey data "_meta" adsetMetaNote)
      else pure data

/-- Modelled from the spec: `get_ads` of `core/ads.py` (not under src/): a
per-resource request builder issuing exactly one GET for the ads under a
campaign (spec section 4.1); endpoint and field list are representative.
The deep orchestrator consumes only the shape of its result (an `error`
key or a `data` list), which the oracle controls. -/
def get_ads (o : Oracle) (account_id : Option String) (campaign_id : String) : JValue × List Call :=
  runTool <| do
    if blank account_id then pure (errObj "No account ID specified")
    else
      makeApiRequest o (campaign_id ++ "/ads")
        [("fields", JValue.jstr "id,name,adset_id,campaign_id,status,creative")] "GET"

/-- Modelled from the spec: `get_ad_creatives` of `core/ads.py` (not under
src/): one GET for an ad's creatives (spec section 4.1); endpoint and field
list are representative.  Only the result's shape matters to the deep
orchestrator. -/
def get_ad_creatives (o : Oracle) (ad_id : Option String) : JValue × List Call :=
  runTool <| do
    if blank ad_id then pure (errObj "No ad ID provided")
    else
      makeApiRequest o (optStr ad_id ++ "/adcreatives")
        [("fields", JValue.jstr "id,name,status,object_story_spec")] "GET"

/-- The outbound parameter mapping of `create_adset` (adsets.py lines
181-223).  `targeting` is always serialized — `json.dumps(None)` is the
literal string `"null"` when the argument is omitted. -/
def createAdsetParams (name campaign_id status optimization_goal billing_event : String)
    (targeting : Option JValue) (bid_amount bid_strategy : Option String) (start_time : String)
    (end_time dsa_beneficiary dsa_payor : Option String) (promoted_object : Option JValue)
    (destination_type : Option String) (attribution_spec : Option JValue) :
    List (String × JValue) :=
  let ps := [("name", JValue.jstr name), ("campaign_id", JValue.jstr campaign_id),
             ("status", JValue.jstr status), ("optimization_goal", JValue.jstr optimization_goal),
             ("billing_event", JValue.jstr billing_event),
             ("targeting", JValue.jstr (pyJsonDumpsOpt targeting))]
  let ps := setOpt ps "bid_amount" bid_amount
  let ps := setOpt ps "bid_strategy" bid_strategy
  let ps := dictSet ps "start_time" (.jstr start_time)
  let ps := setTruthy ps "end_time" end_time
  let ps := setTruthy ps "dsa_beneficiary" dsa_beneficiary
  let ps := setTruthy ps "dsa_payor" dsa_payor
  let ps := setDumpsTruthy ps "promoted_object" promoted_object
  let ps := setOpt ps "destination_type" destination_type
  setDumpsTruthy ps "attribution_spec" attribution_spec

/-- Embeds `create_adset` (adsets.py lines 85-233).  `status` defaults to
the `PAUSED` enum value at the Python signature; the `start_time` default
(`datetime.utcnow()` formatted) is the oracle's clock. -/
def create_adset (o : Oracle) (account_id campaign_id name : Option String) (status : String)
    (targeting : Option JValue) (optimization_goal billing_event : Option String)
    (bid_amount bid_strategy start_time end_time dsa_beneficiary dsa_payor : Option String)
    (promoted_object : Option JValue) (destination_type : Option String)
    (attribution_spec : Option JValue) : JValue × List Call :=
  runTool <| do
    if blank account_id then pure (errObj "No account ID provided")
    else if blank campaign_id then pure (errObj "No campaign ID provided")
    else if blank name then pure (errObj "No ad set name provided")
    else if blank optimization_goal then pure (errObj "No optimization goal provided")
    else if blank billing_event then pure (errObj "No billing event provided")
    else do
      let st := if blank start_time then o.utcnow else optStr start_time
      let params := createAdsetParams (optStr name) (optStr campaign_id) status
        (optStr optimization_goal) (optStr billing_event) targeting bid_amount bid_strategy st
        end_time dsa_beneficiary dsa_payor promoted_object destination_type attribution_spec
      toolTry
        (makeApiRequest o (optStr account_id ++ "/adsets") params "POST")
        (fun e => pure (.jobj [("error", .jstr "Failed to create ad set"),
                               ("details", .jstr e), ("params_sent", .jobj params)]))

/-- The outbound parameter mapping of `update_adset` (adsets.py lines
291-330).  `frequency_control_specs` is stored as the raw list value, not
serialized; `targeting` is serialized when it is a dict. -/
def updateAdsetParams (frequency_control_specs : Option JValue)
    (bid_strategy bid_amount status : Option String) (targeting : Option JValue)
    (optimization_goal daily_budget lifetime_budget start_time end_time : Option String)
    (attribution_spec : Option JValue) : List (String × JValue) :=
  let ps : List (String × JValue) := []
  let ps := match frequency_control_specs with
    | some f => dictSet ps "frequency_control_specs" f
    | none => ps
  let ps := setOpt ps "bid_strategy" bid_strategy
  let ps := setOpt ps "bid_amount" bid_amount
  let ps := setOpt ps "status" status
  let ps := setOpt ps "optimization_goal" optimization_goal
  let ps := match targeting with
    | some t => dictSet ps "targeting" (match t with | .jobj fs => .jstr (pyJsonDumps (.jobj fs)) | v => v)
    | none => ps
  let ps := setOpt ps "daily_budget" daily_budget
  let ps := setOpt ps "lifetime_budget" lifetime_budget
  let ps := setOpt ps "start_time" start_time
  let ps := setOpt ps "end_time" end_time
  match attribution_spec with
  | some a => dictSet ps "attribution_spec" (.jstr (pyJsonDumps a))
  | none => ps

/-- Embeds `update_adset` (adsets.py lines 236-357): POST, echo `adset_id`,
follow-up GET to backfill `name`. -/
def update_adset (o : Oracle) (adset_id : Option String)
    (frequency_control_specs : Option JValue) (bid_strategy bid_amount status : Option String)
    (targeting : Option JValue)
    (optimization_goal daily_budget lifetime_budget start_time end_time : Option String)
    (attribution_spec : Option JValue) : JValue × List Call :=
  runTool <| do
    if blank adset_id then pure (errObj "No ad set ID provided")
    else do
      let aid := optStr adset_id
      let params := updateAdsetParams frequency_control_specs bid_strategy bid_amount status
        targeting optimization_goal daily_budget lifetime_budget start_time end_time
        attribution_spec
      if params.isEmpty then pure (errObj "No update parameters provided")
      else
        toolTry
          (do
            let data ← makeApiRequest o aid params "POST"
            let data ← liftE (pySetKey data "adset_id" (.jstr aid))
            let details ← makeApiRequest o aid [("fields", JValue.jstr "name")] "GET"
            let hasName ← liftE (pyIn "name" details)
            if hasName then do
              let nv ← liftE (pyIndexKey details "name")
              liftE (pySetKey data "name" nv)
            else pure data)
          (fun e => pure (.jobj [("error", .jstr ("Failed to update ad set " ++ aid)),
                                 ("details", .jstr e), ("params_sent", .jobj params)]))

/-- Embeds `get_insights` (insights.py lines 13-105). -/
def get_insights (o : Oracle) (object_id : Option String) (date_preset breakdown level : String)
    (limit : ℤ) (after : String) (campaign_ids : Option (List String))
    (time_range : Option JValue) (time_increment : Option JValue) : JValue × List Call :=
  runTool <| do
    if blank object_id then pure (errObj "No object ID provided")
    else do
      let ps := [("fields", JValue.jstr insightsFields), ("level", JValue.jstr level),
                 ("limit", JValue.jnum (limit : ℚ))]
      let ps := match time_range with
        | some tv =>
          if pyTruthy tv then
            dictSet ps "time_range" (match tv with | .jobj fs => .jstr (pyJsonDumps (.jobj fs)) | v => v)
          else dictSet ps "date_preset" (.jstr date_preset)
        | none => dictSet ps "date_preset" (.jstr date_preset)
      let ps := match time_increment with
        | some ti => dictSet ps "time_increment" ti
        | none => ps
      let ps := if breakdown != "" then dictSet ps "breakdowns" (.jstr breakdown) else ps
      let ps := match campaign_ids with
        | some ids => dictSet ps "filtering" (.jstr (pyJsonDumps (campaignIdFilter ids)))
        | none => ps
      let ps := if after != "" then dictSet ps "after" (.jstr after) else ps
      makeApiRequest o (optStr object_id ++ "/insights") ps "GET"

/-! ### The deep orchestrator (`get_complete_campaign_details_deep`) -/

/-- The campaign names collected for the ambiguity error message
(campaigns.py line 356): `camp.get("name", "Unknown")` per row; joining
requires string values. -/
def collectNames : List JValue → Except String (List String)
  | [] => .ok []
  | c :: rest => do
    let nv ← pyGetAttrD c "name" (.jstr "Unknown")
    let s ← asStr nv
    let ns ← collectNames rest
    .ok (s :: ns)

/-- The ambiguity error message of campaigns.py lines 357-359. -/
def searchAmbiguityMsg (n : ℕ) (names : List String) : String :=
  "Search returned " ++ toString n ++
    " campaigns instead of 1. Found campaigns: " ++ String.intercalate ", " names ++
    ". Please refine your search to target a single campaign."

/-- Steps 1-2 of the deep orchestrator after the campaign fetch
(campaigns.py lines 352-369): the not-found check, the exactly-one-match
check, and the resolution of `actual_campaign_id`; `Except.error` inside
the result is an early `return` of that error object. -/
def deepResolveCampaign (cd : JValue) (campaign_id name_contains : Option String) :
    Except String (Except JValue (JValue × String)) := do
  let notFound ←
    if ncTruthy name_contains then do
      let hasData ← pyIn "data" cd
      if !hasData then pure true
      else do
        let dv ← pyGetAttrD cd "data" .jnull
        pure (!pyTruthy dv)
    else pure false
  if notFound then pure (.error (errObj "Campaign not found"))
  else do
    let multi ←
      if ncTruthy name_contains then do
        let hasData ← pyIn "data" cd
        if hasData then do
          let dv ← pyIndexKey cd "data"
          let n ← pyLen dv
          pure (if n > 1 then some n else none)
        else pure (none : Option ℕ)
      else pure none
    match multi with
    | some n => do
      let dv ← pyIndexKey cd "data"
      let rows ← asList dv
      let names ← collectNames rows
      pure (.error (errObj (searchAmbiguityMsg n names)))
    | none => do
      let sel ←
        if ncTruthy name_contains then do
          let hasData ← pyIn "data" cd
          if hasData then do
            let dv ← pyIndexKey cd "data"
            if pyTruthy dv then do
              let rows ← asList dv
              match rows with
              | first :: _ => do
                let idv ← pyIndexKey first "id"
                let ids ← asStr idv
                pure (some ids)
              | [] => Except.error "IndexError: list index out of range"
            else pure none
          else pure (none : Option String)
        else pure none
      match sel with
      | some ids => pure (.ok (cd, ids))
      | none =>
        if !blank campaign_id then do
          let hasData ← pyIn "data" cd
          let cd' := if !hasData then JValue.jobj [("data", .jarr [cd])] else cd
          pure (.ok (cd', optStr campaign_id))
        else
          pure (.error (errObj "Campaign not found"))

/-- Step 3's per-item loop (campaigns.py lines 391-398): fetch each ad
set's detail; a detail result carrying `error` is skipped and noted, the
others are collected in order. -/
def adsetDetailFold (o : Oracle) : List JValue → ToolM (List JValue × List String)
  | [] => pure ([], [])
  | r :: rest => do
    let idv ← liftE (pyIndexKey r "id")
    let ids ← liftE (asStr idv)
    let det ← subTool (get_adset_details o (some ids))
    let hasErr ← liftE (pyIn "error" det)
    if hasErr then do
      let idShow ← liftE (pyGetAttrD r "id" (.jstr "unknown"))
      let errShow ← liftE (pyGetAttrD det "error" (.jstr "Unknown error"))
      let p ← adsetDetailFold o rest
      pure (p.1, ("Adset details error for " ++ pyStr idShow ++ ": " ++ pyStr errShow) :: p.2)
    else do
      let p ← adsetDetailFold o rest
      pure (det :: p.1, p.2)

/-- Step 3 of the deep orchestrator (campaigns.py lines 382-403): the ad
set list call, the per-item detail loop, and the assembled `adsets` value
plus collected error notes.  When every detail call fails the `data` of
the list response is left as returned by the list call. -/
def deepAdsetsPhase (o : Oracle) (account_id : Option String) (acid : String) :
    ToolM (JValue × List String) := do
  let adsets_data ← subTool (get_adsets o account_id 10 acid)
  let hasErr ← liftE (pyIn "error" adsets_data)
  if hasErr then do
    let errShow ← liftE (pyGetAttrD adsets_data "error" (.jstr "Unknown error"))
    pure (.jobj [("data", .jarr []), ("error", .jstr "Error retrieving ad sets")],
          ["Adsets API error: " ++ pyStr errShow])
  else do
    let hasData ← liftE (pyIn "data" adsets_data)
    let dataTruthy ←
      if hasData then do
        let dv ← liftE (pyIndexKey adsets_data "data")
        pure (pyTruthy dv)
      else pure false
    if hasData && dataTruthy then do
      let dv ← liftE (pyIndexKey adsets_data "data")
      let rows ← liftE (asList dv)
      let p ← adsetDetailFold o rows
      let v ←
        if !p.1.isEmpty then liftE (pySetKey adsets_data "data" (.jarr p.1))
        else pure adsets_data
      pure (v, p.2)
    else
      pure (.jobj [("data", .jarr []), ("error", .jstr "No ad sets found")], [])

/-- Step 4's per-item loop (campaigns.py lines 415-422): fetch each ad's
creatives; results with an `error` key or without a `data` key are noted,
the others' `data` lists are concatenated in order. -/
def creativeFold (o : Oracle) : List JValue → ToolM (List JValue × List String)
  | [] => pure ([], [])
  | ad :: rest => do
    let idv ← liftE (pyIndexKey ad "id")
    let ids ← liftE (asStr idv)
    let cdta ← subTool (get_ad_creatives o (some ids))
    let hasErr ← liftE (pyIn "error" cdta)
    let ok ←
      if hasErr then pure false
      else liftE (pyIn "data" cdta)
    if ok then do
      let dv ← liftE (pyIndexKey cdta "data")
      let dl ← liftE (asList dv)
      let p ← creativeFold o rest
      pure (dl ++ p.1, p.2)
    else do
      let idShow ← liftE (pyGetAttrD ad "id" (.jstr "unknown"))
      let errShow ← liftE (pyGetAttrD cdta "error" (.jstr "Unknown error"))
      let p ← creativeFold o rest
      pure (p.1, ("Ad creatives error for ad " ++ pyStr idShow ++ ": " ++ pyStr errShow) :: p.2)

/-- Step 4 of the deep orchestrator (campaigns.py lines 405-428): the ads
list call, the per-ad creative loop, and the assembled `ads` and
`ad_creatives` values plus collected error notes.  (`ad_creatives` starts
as an empty `data` list, so "all creative fetches failed" and "no
creatives" coincide.) -/
def deepAdsPhase (o : Oracle) (account_id : Option String) (acid : String) :
    ToolM (JValue × JValue × List String) := do
  let ads_data ← subTool (get_ads o account_id acid)
  let hasErr ← liftE (pyIn "error" ads_data)
  if hasErr then do
    let errShow ← liftE (pyGetAttrD ads_data "error" (.jstr "Unknown error"))
    pure (.jobj [("data", .jarr []), ("error", .jstr "Error retrieving ads")],
          .jobj [("data", .jarr []), ("error", .jstr "Cannot retrieve ad creatives due to ads error")],
          ["Ads API error: " ++ pyStr errShow])
  else do
    let hasData ← liftE (pyIn "data" ads_data)
    let dataTruthy ←
      if hasData then do
        let dv ← liftE (pyIndexKey ads_data "data")
        pure (pyTruthy dv)
      else pure false
    if hasData && dataTruthy then do
      let dv ← liftE (pyIndexKey ads_data "data")
      let rows ← liftE (asList dv)
      let p ← creativeFold o rows
      pure (ads_data, .jobj [("data", .jarr p.1)], p.2)
    else
      pure (.jobj [("data", .jarr []), ("error", .jstr "No ads found")],
            .jobj [("data", .jarr []), ("error", .jstr "No ads available to retrieve creatives")],
            [])

/-- Step 5 of the deep orchestrator (campaigns.py lines 371-377 and
430-433): assemble the envelope, dropping the `errors` key exactly when no
error note was collected. -/
def deepAssemble (campaign adsets ads creatives : JValue) (errs : List String) : JValue :=
  if errs.isEmpty then
    .jobj [("campaign", campaign), ("adsets", adsets), ("ads", ads), ("ad_creatives", creatives)]
  else
    .jobj [("campaign", campaign), ("adsets", adsets), ("ads", ads), ("ad_creatives", creatives),
           ("errors", .jarr (errs.map .jstr))]

/-- Steps 3-5 of the deep orchestrator, for a resolved campaign. -/
def deepBody (o : Oracle) (account_id : Option String) (acid : String) (campaign_data : JValue) :
    ToolM JValue := do
  let a ← deepAdsetsPhase o account_id acid
  let b ← deepAdsPhase o account_id acid
  pure (deepAssemble campaign_data a.1 b.1 b.2.1 (a.2 ++ b.2.2))

/-- Embeds `get_complete_campaign_details_deep` (campaigns.py lines
327-433): validate, resolve the target campaign (an error there is
returned alone), then best-effort fan-out over ad sets, ads and
creatives. -/
def get_complete_campaign_details_deep (o : Oracle)
    (account_id campaign_id name_contains : Option String) : JValue × List Call :=
  runTool <| do
    if blank account_id then pure (errObj "account_id is required")
    else if blank campaign_id && !ncProvided name_contains then
      pure (errObj "Either campaign_id or name_contains must be provided")
    else do
      let cd ← subTool (get_campaign_details o account_id campaign_id name_contains)
      let hasErr ← liftE (pyIn "error" cd)
      if hasErr then pure cd
      else do
        let r ← liftE (deepResolveCampaign cd campaign_id name_contains)
        match r with
        | .error e => pure e
        | .ok p => deepBody o account_id p.2 p.1

/-! ### The insights orchestrator (`get_campaign_data_with_insights`) -/

/-- Membership of an action entry's `action_type` in a list of kept types
(`a.get("action_type") in [...]`; a missing or non-string value matches
nothing). -/
def actionTypeIn (keep : List String) (a : JValue) : Except String Bool := do
  let tv ← pyGetAttr a "action_type"
  pure (match tv with
        | some (.jstr t) => keep.contains t
        | _ => false)

/-- The list-comprehension filter over an `actions`-like array
(campaigns.py lines 520, 522, 537, 539). -/
def filterActions (keep : List String) : List JValue → Except String (List JValue)
  | [] => .ok []
  | a :: rest => do
    let b ← actionTypeIn keep a
    let rs ← filterActions keep rest
    .ok (if b then a :: rs else rs)

/-- Post-filtering of one insight row (campaigns.py lines 518-522 and
535-539): `actions` keeps only `lead` and `landing_page_view` entries,
`cost_per_action_type` keeps only entries whose `action_type == "lead"`. -/
def filterInsightRow (ins : JValue) : Except String JValue := do
  let hasA ← pyIn "actions" ins
  let ins ←
    if hasA then do
      let av ← pyIndexKey ins "actions"
      let al ← asList av
      let fl ← filterActions ["lead", "landing_page_view"] al
      pySetKey ins "actions" (.jarr fl)
    else pure ins
  let hasC ← pyIn "cost_per_action_type" ins
  if hasC then do
    let cv ← pyIndexKey ins "cost_per_action_type"
    let cl ← asList cv
    let fl ← filterActions ["lead"] cl
    pySetKey ins "cost_per_action_type" (.jarr fl)
  else pure ins

/-- Row-by-row post-filtering of a parsed insights envelope's `data`. -/
def filterInsightRows : List JValue → Except String (List JValue)
  | [] => .ok []
  | r :: rest => do
    let r' ← filterInsightRow r
    let rs ← filterInsightRows rest
    .ok (r' :: rs)

/-- Post-filtering of a parsed insights envelope (campaigns.py lines
517-522 / 534-539): applied to each row of `data` when present. -/
def filterInsightsEnvelope (ci : JValue) : Except String JValue := do
  let hasData ← pyIn "data" ci
  if hasData then do
    let dv ← pyIndexKey ci "data"
    let dl ← asList dv
    let dl' ← filterInsightRows dl
    pySetKey ci "data" (.jarr dl')
  else pure ci

/-- The body text a batched sub-response parses to:
`json.loads(item.get("body", "\x7b\x7d"))` — a missing body parses as the
empty object, a present body parses to `bodyJson` or raises
`json.JSONDecodeError` when `bodyJson` is `none`. -/
def getBodyParse (b : BatchItem) : Option JValue :=
  match b.bodyStr with
  | none => some (.jobj [])
  | some _ => b.bodyJson

/-- Rendering of `item.get("code")` into the failure message. -/
def codeRepr : Option ℤ → String
  | some n => toString n
  | none => "None"

/-- Handling of one batched sub-response (campaigns.py lines 514-529 /
531-546): non-200 code becomes `{error, details}` for that half only,
a 200 body that fails JSON parsing becomes `{error: parseFailMsg}`, and a
parsed body is post-filtered (a shape error while filtering propagates as
an exception, since only `JSONDecodeError` is caught). -/
def processBatchHalf (b : BatchItem) (parseFailMsg : String) : Except String JValue :=
  if b.code == some 200 then
    match getBodyParse b with
    | none => .ok (errObj parseFailMsg)
    | some ins => filterInsightsEnvelope ins
  else
    .ok (.jobj [("error", .jstr ("Batch request failed with code " ++ codeRepr b.code)),
                ("details", .jstr (b.bodyStr.getD "No response body"))])

/-- The two batched insight sub-requests (campaigns.py lines 497-506). -/
def insightsBatchReqs (acid cif aif date_preset : String) : List BatchReq :=
  [⟨"GET", acid ++ "/insights?fields=" ++ cif ++ "&date_preset=" ++ date_preset ++
      "&time_increment=all_days&level=campaign"⟩,
   ⟨"GET", acid ++ "/insights?fields=" ++ aif ++ "&date_preset=" ++ date_preset ++
      "&time_increment=all_days&level=ad&limit=100"⟩]

/-- Embeds `get_campaign_data_with_insights` (campaigns.py lines 436-554):
deep structure fetch, one batched request with two insight sub-requests,
independent handling of each half, and the final three-key envelope. -/
def get_campaign_data_with_insights (o : Oracle)
    (account_id campaign_id name_contains : Option String) (date_preset : String)
    (campaign_insights_fields ad_insights_fields : Option String) : JValue × List Call :=
  runTool <| do
    if blank account_id then pure (errObj "account_id is required")
    else if blank campaign_id && !ncProvided name_contains then
      pure (errObj "Either campaign_id or name_contains must be provided")
    else if blank campaign_insights_fields then pure (errObj "campaign_insights_fields is required")
    else if blank ad_insights_fields then pure (errObj "ad_insights_fields is required")
    else do
      let campaign_data ← subTool (get_complete_campaign_details_deep o account_id campaign_id name_contains)
      let hasErr ← liftE (pyIn "error" campaign_data)
      if hasErr then pure campaign_data
      else do
        let sel ←
          if ncTruthy name_contains then do
            let co ← liftE (pyGetAttrD campaign_data "campaign" (.jobj []))
            let hasData ← liftE (pyIn "data" co)
            if hasData then do
              let co' ← liftE (pyIndexKey campaign_data "campaign")
              let dv ← liftE (pyIndexKey co' "data")
              let rows ← liftE (asList dv)
              match rows with
              | first :: _ => do
                let idv ← liftE (pyIndexKey first "id")
                let ids ← liftE (asStr idv)
                pure (some ids)
              | [] => liftE (.error "IndexError: list index out of range")
            else pure (none : Option String)
          else pure none
        let acid? ← match sel with
          | some i => pure (some i)
          | none => if !blank campaign_id then pure (some (optStr campaign_id)) else pure none
        match acid? with
        | none => pure (errObj "Campaign not found")
        | some acid => do
          let reqs := insightsBatchReqs acid (optStr campaign_insights_fields)
            (optStr ad_insights_fields) date_preset
          let bs ← makeBatchApiRequest o reqs
          let halves ←
            match bs with
            | b0 :: b1 :: _ => do
              let ci ← liftE (processBatchHalf b0 "Failed to parse campaign insights")
              let ai ← liftE (processBatchHalf b1 "Failed to parse ad insights")
              pure (ci, ai)
            | _ => pure (JValue.jobj [("data", .jarr [])], JValue.jobj [("data", .jarr [])])
          pure (.jobj [("campaign_data", campaign_data), ("campaign_insights", halves.1),
                       ("ad_insights", halves.2)])

/-! ### The insights aggregator (`get_insights_summary`) -/

/-- The spend contribution of one fetched row (insights.py lines 185-189):
a present, truthy, float-parseable `spend` contributes its value, anything
else contributes zero (the `except (ValueError, TypeError): pass`). -/
def spendOfRecord (r : JValue) : Except String ℚ := do
  let hasS ← pyIn "spend" r
  if hasS then do
    let v ← pyIndexKey r "spend"
    if pyTruthy v then pure ((pyFloat v).getD 0) else pure 0
  else pure 0

/-- The lead contribution of one `actions` list (insights.py lines
192-197): entries whose `action_type == "lead"` with a truthy,
int-parseable `value` contribute that value. -/
def leadsOfActions : List JValue → Except String ℤ
  | [] => .ok 0
  | a :: rest => do
    let tv ← pyGetAttr a "action_type"
    let isLead := match tv with | some (.jstr t) => t == "lead" | _ => false
    let c ←
      if isLead then do
        let vv ← pyGetAttr a "value"
        match vv with
        | some v => if pyTruthy v then pure ((pyInt v).getD 0) else pure 0
        | none => pure (0 : ℤ)
      else pure 0
    let rest' ← leadsOfActions rest
    .ok (c + rest')

/-- The lead contribution of one fetched row (insights.py lines 191-197):
only a list-typed `actions` field is scanned. -/
def leadsOfRecord (r : JValue) : Except String ℤ := do
  let hasA ← pyIn "actions" r
  if hasA then do
    let av ← pyIndexKey r "actions"
    match av with
    | .jarr al => leadsOfActions al
    | _ => pure 0
  else pure 0

/-- The aggregation loop of `get_insights_summary` (insights.py lines
181-197): total spend and total leads over the fetched rows. -/
def aggregateRows : List JValue → Except String (ℚ × ℤ)
  | [] => .ok (0, 0)
  | r :: rest => do
    let s ← spendOfRecord r
    let l ← leadsOfRecord r
    let p ← aggregateRows rest
    .ok (s + p.1, l + p.2)

/-- The `object_id` fallback of the account-identifier derivation
(insights.py lines 214-216): used when no account id came from the first
row. -/
def deriveFallback (fromRow : Option String) (object_id : String) : Option String :=
  match fromRow with
  | some s => some s
  | none =>
    if object_id != "" && strStarts object_id "act_" then some object_id else none

/-- The account-identifier derivation of `get_insights_summary`
(insights.py lines 204-216): the first row's `account_id` with the `act_`
tag prepended when missing, else the original `object_id` when that
already starts with `act_`, else nothing.  Falsy intermediate values
(`None`, `""`, `0` …) all fail the later `if account_id:` test and are
collapsed to `none`; a truthy non-string raises (`startswith` on a
non-string). -/
def deriveAccountId (rows : List JValue) (object_id : String) : Except String (Option String) :=
  match rows with
  | [] => .ok (deriveFallback none object_id)
  | first :: _ =>
    match first with
    | .jobj fs =>
      match fs.lookup "account_id" with
      | none => .ok (deriveFallback none object_id)
      | some (.jstr s) =>
        if s != "" then
          .ok (deriveFallback (some (if strStarts s "act_" then s else "act_" ++ s)) object_id)
        else .ok (deriveFallback none object_id)
      | some v =>
        if pyTruthy v then .error "AttributeError: value has no attribute startswith"
        else .ok (deriveFallback none object_id)
    | _ => .error "AttributeError: object has no attribute get"

/-- The status-counting loop of `get_insights_summary` (insights.py lines
233-243): count `ACTIVE` and `PAUSED` campaigns, restricted to
`campaign_ids` when that filter was given. -/
def countCampaignStatuses (campaign_ids : Option (List String)) :
    List JValue → Except String (ℕ × ℕ)
  | [] => .ok (0, 0)
  | c :: rest => do
    let cid ← pyGetAttr c "id"
    let cst ← pyGetAttr c "status"
    let skip := match campaign_ids, cid with
      | some ids, some (.jstr s) => !ids.contains s
      | some _, _ => true
      | none, _ => false
    let p ← countCampaignStatuses campaign_ids rest
    if skip then .ok p
    else
      match cst with
      | some (.jstr "ACTIVE") => .ok (p.1 + 1, p.2)
      | some (.jstr "PAUSED") => .ok (p.1, p.2 + 1)
      | _ => .ok p

/-- The parameter mapping of the campaign-count call (insights.py lines
221-225). -/
def campaignCountParams : List (String × JValue) :=
  [("fields", JValue.jstr "id,status"),
   ("effective_status", JValue.jstr (pyJsonDumps (.jarr [.jstr "ACTIVE", .jstr "PAUSED"]))),
   ("limit", JValue.jnum 1000)]

/-- The diagnostic attached under `campaign_count_error` (insights.py lines
248-256).  The exception type name and `traceback.format_exc()` text are
outside the embedding (exceptions carry only a message here); the keys and
the message/account values are as in the source. -/
def campaignCountError (msg : String) (account : String) : JValue :=
  .jobj [("error_type", .jstr "Exception"), ("error_message", .jstr msg),
         ("account_id", .jstr account), ("traceback", .jstr msg)]

/-- The else-branch of `get_insights_summary` (insights.py lines 259-263):
a dict response with an `error` key is passed through, anything else is
wrapped in a `No valid data received` error. -/
def summaryElse (data : JValue) : JValue :=
  match data with
  | .jobj fs =>
    if (fs.lookup "error").isSome then .jobj fs
    else .jobj [("error", .jstr "No valid data received"), ("raw_response", .jobj fs)]
  | v => .jobj [("error", .jstr "No valid data received"), ("raw_response", v)]

/-- The parameter mapping of the insights fetch of `get_insights_summary`
(insights.py lines 163-176). -/
def insightsSummaryParams (date_preset breakdown level : String)
    (campaign_ids : Option (List String)) : List (String × JValue) :=
  let ps := [("fields", JValue.jstr "account_id,spend,actions"), ("level", JValue.jstr level),
             ("limit", JValue.jnum 1000)]
  let ps := dictSet ps "date_preset" (.jstr date_preset)
  let ps := if breakdown != "" then dictSet ps "breakdowns" (.jstr breakdown) else ps
  match campaign_ids with
  | some ids => dictSet ps "filtering" (.jstr (pyJsonDumps (campaignIdFilter ids)))
  | none => ps

/-- Embeds `get_insights_summary` (insights.py lines 108-263): fetch rows,
aggregate spend and leads, derive an account id, and best-effort count
campaigns by status. -/
def get_insights_summary (o : Oracle) (object_id : Option String)
    (date_preset breakdown level : String) (campaign_ids : Option (List String)) :
    JValue × List Call :=
  runTool <| do
    if blank object_id then pure (errObj "No object ID provided")
    else do
      let oid := optStr object_id
      let params := insightsSummaryParams date_preset breakdown level campaign_ids
      let data ← makeApiRequest o (oid ++ "/insights") params "GET"
      match data with
      | .jobj fs =>
        match fs.lookup "data" with
        | some (.jarr rows) =>
          if (fs.lookup "error").isSome then pure (summaryElse data)
          else do
            let agg ← liftE (aggregateRows rows)
            let base := [("total_spend", JValue.jnum (pyRound2 agg.1)),
                         ("total_leads", JValue.jnum (agg.2 : ℚ))]
            let acc ← liftE (deriveAccountId rows oid)
            match acc with
            | none => pure (.jobj base)
            | some a =>
              toolTry
                (do
                  let cdata ← makeApiRequest o (a ++ "/campaigns") campaignCountParams "GET"
                  match cdata with
                  | .jobj gs =>
                    match gs.lookup "data" with
                    | some (.jarr camps) => do
                      let cnt ← liftE (countCampaignStatuses campaign_ids camps)
                      pure (.jobj (base ++
                        [("active_campaigns", JValue.jnum (cnt.1 : ℚ)),
                         ("paused_campaigns", JValue.jnum (cnt.2 : ℚ))]))
                    | _ => pure (.jobj base)
                  | _ => pure (.jobj base))
                (fun e => pure (.jobj (base ++ [("campaign_count_error", campaignCountError e a)])))
        | _ => pure (summaryElse data)
      | _ => pure (summaryElse data)

/-! ### Lemmas about the tool monad's trace -/

/-- The raw reduction of `>>=` in the tool monad. -/
theorem ToolM.bind_apply {α β : Type} (m : ToolM α) (f : α → ToolM β) (t : List Call) :
    (m >>= f) t =
      match m t with
      | (.ok a, t') => f a t'
      | (.error e, t') => (.error e, t') := rfl

/-- The raw reduction of `pure` in the tool monad. -/
theorem ToolM.pure_apply {α : Type} (a : α) (t : List Call) :
    (pure a : ToolM α) t = (.ok a, t) := rfl

/-- The trace component of a decorated tool run is the trace of its body
run from the empty trace. -/
theorem runTool_trace (m : ToolM JValue) : (runTool m).2 = (m []).2 := by
  unfold runTool
  rcases m [] with ⟨r, t⟩
  cases r <;> rfl

/-- A tool-monad step that issues no shim call. -/
def noCalls {α : Type} (m : ToolM α) : Prop := ∀ t, (m t).2 = t

theorem noCalls_pure {α : Type} (a : α) : noCalls (pure a : ToolM α) := fun _ => rfl

theorem noCalls_liftE {α : Type} (e : Except String α) : noCalls (liftE e) := fun _ => rfl

theorem noCalls_bind {α β : Type} {m : ToolM α} {f : α → ToolM β} (hm : noCalls m)
    (hf : ∀ a, noCalls (f a)) : noCalls (m >>= f) := by
  intro t
  rw [ToolM.bind_apply]
  rcases hmt : m t with ⟨r, t'⟩
  have ht' : t' = t := by have h := hm t; rw [hmt] at h; exact h
  cases r with
  | ok a => show (f a t').2 = t; rw [ht']; exact hf a t
  | error e => exact ht'

theorem noCalls_ite {α : Type} {c : Prop} [Decidable c] {m₁ m₂ : ToolM α} (h₁ : noCalls m₁)
    (h₂ : noCalls m₂) : noCalls (if c then m₁ else m₂) := by
  by_cases hc : c
  · simpa [hc] using h₁
  · simpa [hc] using h₂

/-- A `try` block consisting of one shim call followed by call-free
post-processing, with a call-free handler, adds exactly that call to the
trace. -/
theorem toolTry_api_trace (o : Oracle) (ep : String) (ps : List (String × JValue)) (mth : String)
    (k : JValue → ToolM JValue) (h : String → ToolM JValue) (hk : ∀ v, noCalls (k v))
    (hh : ∀ e, noCalls (h e)) (t : List Call) :
    ((toolTry (makeApiRequest o ep ps mth >>= k) h) t).2 = t ++ [Call.api ep ps mth] := by
  rcases hx : o.api ep ps mth with e | v
  · have happ : (makeApiRequest o ep ps mth >>= k) t =
        (.error e, t ++ [Call.api ep ps mth]) := by
      simp only [ToolM.bind_apply, makeApiRequest, hx]
    have hred : (toolTry (makeApiRequest o ep ps mth >>= k) h) t =
        h e (t ++ [Call.api ep ps mth]) := by
      unfold toolTry; rw [happ]
    rw [hred]
    exact hh e _
  · rcases hkv : k v (t ++ [Call.api ep ps mth]) with ⟨r, t''⟩
    have ht'' : t'' = t ++ [Call.api ep ps mth] := by
      have h2 := hk v (t ++ [Call.api ep ps mth]); rw [hkv] at h2; exact h2
    have happ : (makeApiRequest o ep ps mth >>= k) t = (r, t'') := by
      simp only [ToolM.bind_apply, makeApiRequest, hx, hkv]
    cases r with
    | ok a =>
      have hred : (toolTry (makeApiRequest o ep ps mth >>= k) h) t = (Except.ok a, t'') := by
        unfold toolTry; rw [happ]
      rw [hred]
      exact ht''
    | error e =>
      have hred : (toolTry (makeApiRequest o ep ps mth >>= k) h) t = h e t'' := by
        unfold toolTry; rw [happ]
      rw [hred, ht'']
      exact hh e _

/-! ### Lemmas about the parameter-mapping builders -/

theorem lookup_dictSet_ne (l : List (String × JValue)) (k' k : String) (v : JValue)
    (h : (k == k') = false) : (dictSet l k' v).lookup k = l.lookup k := by
  induction l with
  | nil => simp [dictSet, List.lookup, h]
  | cons p rest ih =>
    rcases p with ⟨a, b⟩
    by_cases ha : (a == k') = true
    · have ha' : a = k' := by simpa using ha
      subst ha'
      simp [dictSet, List.lookup, h]
    · have ha' : (a == k') = false := by simpa using ha
      simp [dictSet, ha', List.lookup, ih]

theorem lookup_dictSet_self (l : List (String × JValue)) (k : String) (v : JValue) :
    (dictSet l k v).lookup k = some v := by
  induction l with
  | nil => simp [dictSet, List.lookup]
  | cons p rest ih =>
    rcases p with ⟨a, b⟩
    by_cases ha : a = k
    · subst ha
      simp [dictSet, List.lookup]
    · have ha' : (a == k) = false := by simpa using ha
      have ha'' : (k == a) = false := by
        simpa using fun hya => ha hya.symm
      simp [dictSet, ha', List.lookup, ha'', ih]

theorem lookup_setOpt_ne (l : List (String × JValue)) (k' k : String) (ov : Option String)
    (h : (k == k') = false) : (setOpt l k' ov).lookup k = l.lookup k := by
  cases ov with
  | none => rfl
  | some b => simp [setOpt, lookup_dictSet_ne _ _ _ _ h]

theorem lookup_setTruthy_ne (l : List (String × JValue)) (k' k : String) (ov : Option String)
    (h : (k == k') = false) : (setTruthy l k' ov).lookup k = l.lookup k := by
  cases ov with
  | none => rfl
  | some b =>
    by_cases hb : (b != "") = true
    · simp [setTruthy, hb, lookup_dictSet_ne _ _ _ _ h]
    · simp only [Bool.not_eq_true] at hb
      simp [setTruthy, hb]

theorem lookup_setBoolTF_ne (l : List (String × JValue)) (k' k : String) (ov : Option Bool)
    (h : (k == k') = false) : (setBoolTF l k' ov).lookup k = l.lookup k := by
  cases ov with
  | none => rfl
  | some b => simp [setBoolTF, lookup_dictSet_ne _ _ _ _ h]

theorem lookup_setDumpsTruthy_ne (l : List (String × JValue)) (k' k : String) (ov : Option JValue)
    (h : (k == k') = false) : (setDumpsTruthy l k' ov).lookup k = l.lookup k := by
  cases ov with
  | none => rfl
  | some p =>
    by_cases hp : pyTruthy p = true
    · simp [setDumpsTruthy, hp, lookup_dictSet_ne _ _ _ _ h]
    · simp only [Bool.not_eq_true] at hp
      simp [setDumpsTruthy, hp]

/-- The `status` entry of `create_campaign`'s parameter mapping is always
the string `"PAUSED"`: it is set unconditionally at line 147 and no later
conditional writes that key. -/
theorem createCampaignParams_lookup_status (name objective : String) (sac : List String)
    (sacc db lb bt bs bc sc : Option String) (cbo : Option Bool) :
    (createCampaignParams name objective sac sacc db lb bt bs bc sc cbo).lookup "status" =
      some (.jstr "PAUSED") := by
  unfold createCampaignParams
  rw [lookup_setTruthy_ne _ _ _ _ (by decide), lookup_setOpt_ne _ _ _ _ (by decide),
      lookup_setOpt_ne _ _ _ _ (by decide), lookup_setOpt_ne _ _ _ _ (by decide),
      lookup_setTruthy_ne _ _ _ _ (by decide), lookup_setBoolTF_ne _ _ _ _ (by decide),
      lookup_setOpt_ne _ _ _ _ (by decide), lookup_setOpt_ne _ _ _ _ (by decide)]
  rfl

/-- A `try` block consisting of exactly one shim call, with a call-free
handler, adds exactly that call to the trace. -/
theorem toolTry_api_only_trace (o : Oracle) (ep : String) (ps : List (String × JValue))
    (mth : String) (h : String → ToolM JValue) (hh : ∀ e, noCalls (h e)) (t : List Call) :
    ((toolTry (makeApiRequest o ep ps mth) h) t).2 = t ++ [Call.api ep ps mth] := by
  rcases hx : o.api ep ps mth with e | v
  · have hred : (toolTry (makeApiRequest o ep ps mth) h) t =
        h e (t ++ [Call.api ep ps mth]) := by
      unfold toolTry makeApiRequest
      rw [hx]
    rw [hred]
    exact hh e _
  · have hred : (toolTry (makeApiRequest o ep ps mth) h) t =
        (Except.ok v, t ++ [Call.api ep ps mth]) := by
      unfold toolTry makeApiRequest
      rw [hx]
    rw [hred]

/-- The `targeting` entry of `create_adset`'s parameter mapping is always
the serialization of the `targeting` argument: set unconditionally at line
189 and never overwritten. -/
theorem createAdsetParams_lookup_targeting (name campaign_id status og be : String)
    (targeting : Option JValue) (bid_amount bid_strategy : Option String) (start_time : String)
    (end_time dsa_b dsa_p : Option String) (po : Option JValue) (dt : Option String)
    (asp : Option JValue) :
    (createAdsetParams name campaign_id status og be targeting bid_amount bid_strategy
        start_time end_time dsa_b dsa_p po dt asp).lookup "targeting" =
      some (.jstr (pyJsonDumpsOpt targeting)) := by
  unfold createAdsetParams
  rw [lookup_setDumpsTruthy_ne _ _ _ _ (by decide), lookup_setOpt_ne _ _ _ _ (by decide),
      lookup_setDumpsTruthy_ne _ _ _ _ (by decide), lookup_setTruthy_ne _ _ _ _ (by decide),
      lookup_setTruthy_ne _ _ _ _ (by decide), lookup_setTruthy_ne _ _ _ _ (by decide),
      lookup_dictSet_ne _ _ _ _ (by decide), lookup_setOpt_ne _ _ _ _ (by decide),
      lookup_setOpt_ne _ _ _ _ (by decide)]
  rfl

/-- A do-nothing shim environment for closed witness instances. -/
def oTrivial : Oracle :=
  ⟨fun _ _ _ => .error "unreachable", fun _ => .error "unreachable", "2026-01-01T00:00:00+0000"⟩

/-- C9: every `create_campaign` invocation that passes validation issues
exactly one POST whose parameter mapping has `status` bound to the string
`"PAUSED"`, whatever the supplied arguments — the tool offers no way to
create a campaign in any other initial status. -/
theorem create_campaign_always_paused (o : Oracle) (account_id name objective : Option String)
    (sac : Option (List String)) (sacc db lb bt bs bc sc : Option String) (cbo : Option Bool)
    (ha : blank account_id = false) (hn : blank name = false) (hob : blank objective = false) :
    (create_campaign o account_id name objective sac sacc db lb bt bs bc sc cbo).2 =
      [Call.api (optStr account_id ++ "/campaigns")
        (createCampaignParams (optStr name) (optStr objective) (sac.getD []) sacc db lb bt bs bc
          sc cbo) "POST"] ∧
    (createCampaignParams (optStr name) (optStr objective) (sac.getD []) sacc db lb bt bs bc
        sc cbo).lookup "status" = some (.jstr "PAUSED") := by
  constructor
  · simp only [create_campaign, ha, hn, hob, Bool.false_eq_true, if_false]
    rw [runTool_trace]
    have hk : ∀ v, noCalls
        ((fun data => do
          let hasName ← liftE (pyIn "name" data)
          if hasName then do
            let nv ← liftE (pyGetAttr data "name")
            if !pyTruthy (nv.getD .jnull) then
              liftE (pySetKey data "name" (.jstr (optStr name)))
            else pure data
          else
            liftE (pySetKey data "name" (.jstr (optStr name))) : JValue → ToolM JValue) v) := by
      intro v
      apply noCalls_bind (noCalls_liftE _)
      intro hasName
      apply noCalls_ite
      · apply noCalls_bind (noCalls_liftE _)
        intro nv
        apply noCalls_ite
        · exact noCalls_liftE _
        · exact noCalls_pure _
      · exact noCalls_liftE _
    simpa using toolTry_api_trace o (optStr account_id ++ "/campaigns") _ "POST" _ _ hk
      (fun e => noCalls_pure _) []
  · exact createCampaignParams_lookup_status _ _ _ _ _ _ _ _ _ _ _

/-- Witness for C9 at a concrete input. -/
theorem create_campaign_always_paused_witness :
    blank (some "act_1") = false ∧ blank (some "Summer") = false ∧
    blank (some "OUTCOME_LEADS") = false ∧
    ((create_campaign oTrivial (some "act_1") (some "Summer") (some "OUTCOME_LEADS") none none
        none none none none none none none).2 =
      [Call.api (optStr (some "act_1") ++ "/campaigns")
        (createCampaignParams (optStr (some "Summer")) (optStr (some "OUTCOME_LEADS"))
          ((none : Option (List String)).getD []) none none none none none none none none)
        "POST"] ∧
     (createCampaignParams (optStr (some "Summer")) (optStr (some "OUTCOME_LEADS"))
        ((none : Option (List String)).getD []) none none none none none none none
        none).lookup "status" = some (.jstr "PAUSED")) :=
  ⟨rfl, rfl, rfl,
   create_campaign_always_paused oTrivial (some "act_1") (some "Summer") (some "OUTCOME_LEADS")
     none none none none none none none none none rfl rfl rfl⟩

/-- C10: every `create_adset` invocation that passes validation issues
exactly one POST whose parameter mapping binds `targeting` to the JSON
serialization of the `targeting` argument; in particular an omitted
`targeting` (which is not validated as required) is sent as the literal
string `"null"` rather than dropped or rejected. -/
theorem create_adset_targeting_always_serialized (o : Oracle)
    (account_id campaign_id name : Option String) (status : String) (targeting : Option JValue)
    (og be bid_amount bid_strategy start_time end_time dsa_b dsa_p : Option String)
    (po : Option JValue) (dt : Option String) (asp : Option JValue)
    (ha : blank account_id = false) (hc : blank campaign_id = false) (hn : blank name = false)
    (hg : blank og = false) (hb : blank be = false) :
    (create_adset o account_id campaign_id name status targeting og be bid_amount bid_strategy
        start_time end_time dsa_b dsa_p po dt asp).2 =
      [Call.api (optStr account_id ++ "/adsets")
        (createAdsetParams (optStr name) (optStr campaign_id) status (optStr og) (optStr be)
          targeting bid_amount bid_strategy
          (if blank start_time then o.utcnow else optStr start_time) end_time dsa_b dsa_p po dt
          asp) "POST"] ∧
    (createAdsetParams (optStr name) (optStr campaign_id) status (optStr og) (optStr be)
        targeting bid_amount bid_strategy
        (if blank start_time then o.utcnow else optStr start_time) end_time dsa_b dsa_p po dt
        asp).lookup "targeting" = some (.jstr (pyJsonDumpsOpt targeting)) ∧
    (targeting = none → pyJsonDumpsOpt targeting = "null") := by
  refine ⟨?_, createAdsetParams_lookup_targeting _ _ _ _ _ _ _ _ _ _ _ _ _ _ _, ?_⟩
  · simp only [create_adset, ha, hc, hn, hg, hb, Bool.false_eq_true, if_false]
    rw [runTool_trace]
    simpa using toolTry_api_only_trace o (optStr account_id ++ "/adsets") _ "POST" _
      (fun e => noCalls_pure _) []
  · intro h
    rw [h]
    rfl

/-- Witness for C10 at a concrete input (targeting omitted). -/
theorem create_adset_targeting_always_serialized_witness :
    blank (some "act_1") = false ∧ blank (some "123") = false ∧ blank (some "AS") = false ∧
    blank (some "LEAD_GENERATION") = false ∧ blank (some "IMPRESSIONS") = false ∧
    ((create_adset oTrivial (some "act_1") (some "123") (some "AS") "PAUSED" none
        (some "LEAD_GENERATION") (some "IMPRESSIONS") none none none none none none none none
        none).2 =
      [Call.api (optStr (some "act_1") ++ "/adsets")
        (createAdsetParams (optStr (some "AS")) (optStr (some "123")) "PAUSED"
          (optStr (some "LEAD_GENERATION")) (optStr (some "IMPRESSIONS")) none none none
          (if blank (none : Option String) then oTrivial.utcnow else optStr none) none none none
          none none none) "POST"] ∧
     (createAdsetParams (optStr (some "AS")) (optStr (some "123")) "PAUSED"
        (optStr (some "LEAD_GENERATION")) (optStr (some "IMPRESSIONS")) none none none
        (if blank (none : Option String) then oTrivial.utcnow else optStr none) none none none
        none none none).lookup "targeting" = some (.jstr (pyJsonDumpsOpt none)) ∧
     ((none : Option JValue) = none → pyJsonDumpsOpt none = "null")) :=
  ⟨rfl, rfl, rfl, rfl, rfl,
   create_adset_targeting_always_serialized oTrivial (some "act_1") (some "123") (some "AS")
     "PAUSED" none (some "LEAD_GENERATION") (some "IMPRESSIONS") none none none none none none
     none none none rfl rfl rfl rfl rfl⟩

/-- C3: for every tool of the three embedded modules and every required
field of that tool, invoking the tool with that field missing (`none`) or
empty (`""`) returns an object containing an `error` key and issues no
outbound shim call (the returned trace is empty).  Each conjunct fixes one
required field as blank, quantifies the remaining arguments, and pins the
exact error object and the empty trace. -/
theorem required_field_validation_blocks_call :
    (∀ o aid limit sf after cids, blank aid = true →
      get_campaigns o aid limit sf after cids = (errObj "No account ID specified", [])) ∧
    (∀ o aid cid nc, blank aid = true →
      get_campaign_details o aid cid nc = (errObj "account_id is required", [])) ∧
    (∀ o aid cid nc, blank aid = false → ncProvided nc = false → blank cid = true →
      get_campaign_details o aid cid nc =
        (errObj "Either campaign_id or name_contains must be provided", [])) ∧
    (∀ o aid nm ob sac sacc db lb bt bs bc sc cbo, blank aid = true →
      create_campaign o aid nm ob sac sacc db lb bt bs bc sc cbo =
        (errObj "No account ID provided", [])) ∧
    (∀ o aid nm ob sac sacc db lb bt bs bc sc cbo, blank aid = false → blank nm = true →
      create_campaign o aid nm ob sac sacc db lb bt bs bc sc cbo =
        (errObj "No campaign name provided", [])) ∧
    (∀ o aid nm ob sac sacc db lb bt bs bc sc cbo, blank aid = false → blank nm = false →
      blank ob = true →
      create_campaign o aid nm ob sac sacc db lb bt bs bc sc cbo =
        (errObj "No campaign objective provided", [])) ∧
    (∀ o cid nm st sac db lb bs bc sc cbo ob uab, blank cid = true →
      update_campaign o cid nm st sac db lb bs bc sc cbo ob uab =
        (errObj "No campaign ID provided", [])) ∧
    (∀ o aid limit cid, blank aid = true →
      get_adsets o aid limit cid = (errObj "No account ID specified", [])) ∧
    (∀ o asid, blank asid = true →
      get_adset_details o asid = (errObj "No ad set ID provided", [])) ∧
    (∀ o aid cid nm st tg og be ba bs stt et dbf dpf po dt asp, blank aid = true →
      create_adset o aid cid nm st tg og be ba bs stt et dbf dpf po dt asp =
        (errObj "No account ID provided", [])) ∧
    (∀ o aid cid nm st tg og be ba bs stt et dbf dpf po dt asp, blank aid = false →
      blank cid = true →
      create_adset o aid cid nm st tg og be ba bs stt et dbf dpf po dt asp =
        (errObj "No campaign ID provided", [])) ∧
    (∀ o aid cid nm st tg og be ba bs stt et dbf dpf po dt asp, blank aid = false →
      blank cid = false → blank nm = true →
      create_adset o aid cid nm st tg og be ba bs stt et dbf dpf po dt asp =
        (errObj "No ad set name provided", [])) ∧
    (∀ o aid cid nm st tg og be ba bs stt et dbf dpf po dt asp, blank aid = false →
      blank cid = false → blank nm = false → blank og = true →
      create_adset o aid cid nm st tg og be ba bs stt et dbf dpf po dt asp =
        (errObj "No optimization goal provided", [])) ∧
    (∀ o aid cid nm st tg og be ba bs stt et dbf dpf po dt asp, blank aid = false →
      blank cid = false → blank nm = false → blank og = false → blank be = true →
      create_adset o aid cid nm st tg og be ba bs stt et dbf dpf po dt asp =
        (errObj "No billing event provided", [])) ∧
    (∀ o asid fcs bs ba st tg og db lb stt et asp, blank asid = true →
      update_adset o asid fcs bs ba st tg og db lb stt et asp =
        (errObj "No ad set ID provided", [])) ∧
    (∀ o oid dp bd lv limit after cids tr ti, blank oid = true →
      get_insights o oid dp bd lv limit after cids tr ti =
        (errObj "No object ID provided", [])) ∧
    (∀ o oid dp bd lv cids, blank oid = true →
      get_insights_summary o oid dp bd lv cids = (errObj "No object ID provided", [])) ∧
    (∀ o aid cid nc, blank aid = true →
      get_complete_campaign_details_deep o aid cid nc = (errObj "account_id is required", [])) ∧
    (∀ o aid cid nc, blank aid = false → blank cid = true → ncProvided nc = false →
      get_complete_campaign_details_deep o aid cid nc =
        (errObj "Either campaign_id or name_contains must be provided", [])) ∧
    (∀ o aid cid nc dp cif aif, blank aid = true →
      get_campaign_data_with_insights o aid cid nc dp cif aif =
        (errObj "account_id is required", [])) ∧
    (∀ o aid cid nc dp cif aif, blank aid = false → blank cid = true → ncProvided nc = false →
      get_campaign_data_with_insights o aid cid nc dp cif aif =
        (errObj "Either campaign_id or name_contains must be provided", [])) ∧
    (∀ o aid cid nc dp cif aif, blank aid = false →
      (blank cid = false ∨ ncProvided nc = true) → blank cif = true →
      get_campaign_data_with_insights o aid cid nc dp cif aif =
        (errObj "campaign_insights_fields is required", [])) ∧
    (∀ o aid cid nc dp cif aif, blank aid = false →
      (blank cid = false ∨ ncProvided nc = true) → blank cif = false → blank aif = true →
      get_campaign_data_with_insights o aid cid nc dp cif aif =
        (errObj "ad_insights_fields is required", [])) := by
  refine ⟨?_, ?_, ?_, ?_, ?_, ?_, ?_, ?_, ?_, ?_, ?_, ?_, ?_, ?_, ?_, ?_, ?_, ?_, ?_, ?_, ?_,
    ?_, ?_⟩
  · intro o aid limit sf after cids h
    simp [get_campaigns, h, runTool]
  · intro o aid cid nc h
    simp [get_campaign_details, h, runTool]
  · intro o aid cid nc h1 h2 h3
    simp [get_campaign_details, h1, h2, h3, runTool]
  · intro o aid nm ob sac sacc db lb bt bs bc sc cbo h
    simp [create_campaign, h, runTool]
  · intro o aid nm ob sac sacc db lb bt bs bc sc cbo h1 h2
    simp [create_campaign, h1, h2, runTool]
  · intro o aid nm ob sac sacc db lb bt bs bc sc cbo h1 h2 h3
    simp [create_campaign, h1, h2, h3, runTool]
  · intro o cid nm st sac db lb bs bc sc cbo ob uab h
    simp [update_campaign, h, runTool]
  · intro o aid limit cid h
    simp [get_adsets, h, runTool]
  · intro o asid h
    simp [get_adset_details, h, runTool]
  · intro o aid cid nm st tg og be ba bs stt et dbf dpf po dt asp h
    simp [create_adset, h, runTool]
  · intro o aid cid nm st tg og be ba bs stt et dbf dpf po dt asp h1 h2
    simp [create_adset, h1, h2, runTool]
  · intro o aid cid nm st tg og be ba bs stt et dbf dpf po dt asp h1 h2 h3
    simp [create_adset, h1, h2, h3, runTool]
  · intro o aid cid nm st tg og be ba bs stt et dbf dpf po dt asp h1 h2 h3 h4
    simp [create_adset, h1, h2, h3, h4, runTool]
  · intro o aid cid nm st tg og be ba bs stt et dbf dpf po dt asp h1 h2 h3 h4 h5
    simp [create_adset, h1, h2, h3, h4, h5, runTool]
  · intro o asid fcs bs ba st tg og db lb stt et asp h
    simp [update_adset, h, runTool]
  · intro o oid dp bd lv limit after cids tr ti h
    simp [get_insights, h, runTool]
  · intro o oid dp bd lv cids h
    simp [get_insights_summary, h, runTool]
  · intro o aid cid nc h
    simp [get_complete_campaign_details_deep, h, runTool]
  · intro o aid cid nc h1 h2 h3
    simp [get_complete_campaign_details_deep, h1, h2, h3, runTool]
  · intro o aid cid nc dp cif aif h
    simp [get_campaign_data_with_insights, h, runTool]
  · intro o aid cid nc dp cif aif h1 h2 h3
    simp [get_campaign_data_with_insights, h1, h2, h3, runTool]
  · intro o aid cid nc dp cif aif h1 h2 h3
    rcases h2 with h2 | h2 <;> simp [get_campaign_data_with_insights, h1, h2, h3, runTool]
  · intro o aid cid nc dp cif aif h1 h2 h3 h4
    rcases h2 with h2 | h2 <;> simp [get_campaign_data_with_insights, h1, h2, h3, h4, runTool]

/-- Witness for C3 at concrete inputs: `create_campaign` without
`account_id` and `create_adset` without `billing_event`. -/
theorem required_field_validation_blocks_call_witness :
    blank (none : Option String) = true ∧ blank (some "act_1") = false ∧
    (create_campaign oTrivial none (some "N") (some "OUTCOME_LEADS") none none none none none
       none none none none = (errObj "No account ID provided", [])) ∧
    (create_adset oTrivial (some "act_1") (some "123") (some "AS") "PAUSED" none
       (some "LEAD_GENERATION") none none none none none none none none none none =
      (errObj "No billing event provided", [])) :=
  ⟨rfl, rfl,
   required_field_validation_blocks_call.2.2.2.1 oTrivial none (some "N") (some "OUTCOME_LEADS")
     none none none none none none none none none rfl,
   (required_field_validation_blocks_call.2.2.2.2.2.2.2.2.2.2.2.2.2.1) oTrivial (some "act_1")
     (some "123") (some "AS") "PAUSED" none (some "LEAD_GENERATION") none none none none none
     none none none none none rfl rfl rfl rfl rfl⟩

/-! ### C5: where the multi-match ambiguity error is produced -/

/-- A search response carrying exactly two campaigns with the given
names. -/
def twoCampaignFixture (n1 n2 : String) : JValue :=
  .jobj [("data", .jarr [
    .jobj [("id", .jstr "c1"), ("name", .jstr n1)],
    .jobj [("id", .jstr "c2"), ("name", .jstr n2)]])]

/-- A shim environment answering every single request with the same
response (only one request is ever issued on the paths under study). -/
def oConst (resp : Except String JValue) : Oracle :=
  ⟨fun _ _ _ => resp, fun _ => .error "unexpected batch", "2026-01-01T00:00:00+0000"⟩

/-- Counterexample to C5 as stated: `get_campaign_details` itself, called
with `name_contains = "Promo"` against a search returning the two
campaigns "Promo A" and "Promo B", does not return an error object at all
— it returns the raw multi-campaign search payload unchanged (the
ambiguity check lives in the deep orchestrator, campaigns.py lines
352-359, not in `get_campaign_details`, lines 56-89). -/
theorem get_campaign_details_multi_match_no_error :
    (get_campaign_details (oConst (.ok (twoCampaignFixture "Promo A" "Promo B")))
        (some "act_1") none (some "Promo")).1.hasKey "error" = false ∧
    (get_campaign_details (oConst (.ok (twoCampaignFixture "Promo A" "Promo B")))
        (some "act_1") none (some "Promo")).1 = twoCampaignFixture "Promo A" "Promo B" :=
  ⟨rfl, rfl⟩

/-- C5 (amended): the name-substring ambiguity error enumerating the
matched names is produced by `get_complete_campaign_details_deep` (which
routes the search through `get_campaign_details`); for any two matched
campaign names the orchestrator returns exactly the enumerating error
object, stops after the single search call, and the message at the
claim's fixture is the claimed one. -/
theorem deep_multi_match_enumerating_error (n1 n2 : String) :
    (get_complete_campaign_details_deep (oConst (.ok (twoCampaignFixture n1 n2)))
        (some "act_1") none (some "Promo")).1 = errObj (searchAmbiguityMsg 2 [n1, n2]) ∧
    (get_complete_campaign_details_deep (oConst (.ok (twoCampaignFixture n1 n2)))
        (some "act_1") none (some "Promo")).2 =
      [Call.api "act_1/campaigns"
        [("fields", .jstr campaignDetailsFields),
         ("filtering", .jstr (pyJsonDumps (nameContainFilter "Promo")))] "GET"] ∧
    searchAmbiguityMsg 2 ["Promo A", "Promo B"] =
      "Search returned 2 campaigns instead of 1. Found campaigns: Promo A, Promo B. Please refine your search to target a single campaign." :=
  ⟨rfl, rfl, rfl⟩

/-! ### C8: create / update round trip -/

/-- C8: (a) `create_campaign`'s response carries the `id` the POST
response carried, whatever the name-backfill branch does; (b) updating
that campaign with `name = nm` POSTs the update, echoes `campaign_id`
back, and backfills `name` from the follow-up GET: when the server's GET
response reports the updated name, the tool's response has `name = nm` and
`campaign_id` equal to the input id, with exactly the POST-then-GET call
pair issued. -/
theorem create_update_campaign_roundtrip (o : Oracle) (aid nm' ob : Option String)
    (cs : List (String × JValue)) (cid nm : String) (ds gs : List (String × JValue))
    (ha : blank aid = false) (hn : blank nm' = false) (hob : blank ob = false)
    (hcreate : o.api (optStr aid ++ "/campaigns")
      (createCampaignParams (optStr nm') (optStr ob) [] none none none none none none none none)
      "POST" = .ok (.jobj cs))
    (hcid : (cid == "") = false)
    (hpost : o.api cid [("name", .jstr nm)] "POST" = .ok (.jobj ds))
    (hget : o.api cid [("fields", .jstr "name")] "GET" = .ok (.jobj gs))
    (hname : gs.lookup "name" = some (.jstr nm)) :
    (create_campaign o aid nm' ob none none none none none none none none none).1.get? "id" =
      cs.lookup "id" ∧
    (update_campaign o (some cid) (some nm) none none none none none none none none none
        none).1.get? "campaign_id" = some (.jstr cid) ∧
    (update_campaign o (some cid) (some nm) none none none none none none none none none
        none).1.get? "name" = some (.jstr nm) ∧
    (update_campaign o (some cid) (some nm) none none none none none none none none none
        none).2 =
      [Call.api cid [("name", .jstr nm)] "POST", Call.api cid [("fields", .jstr "name")] "GET"] := by
  have hupd : update_campaign o (some cid) (some nm) none none none none none none none none
      none none =
      (.jobj (dictSet (dictSet ds "campaign_id" (.jstr cid)) "name" (.jstr nm)),
       [Call.api cid [("name", .jstr nm)] "POST", Call.api cid [("fields", .jstr "name")] "GET"]) := by
    simp only [update_campaign, blank, hcid, Bool.false_eq_true, if_false, optStr, Option.getD,
      updateCampaignParams, setOpt, setBoolTF, dictSet, List.isEmpty, runTool, toolTry,
      ToolM.bind_apply, ToolM.pure_apply, makeApiRequest, liftE, hpost, hget, pySetKey, pyIn,
      pyIndexKey, hname, Option.isSome, if_true, ite_true, List.nil_append, List.cons_append,
      List.append_nil]
  have hcr : create_campaign o aid nm' ob none none none none none none none none none =
      (match cs.lookup "name" with
       | some nv =>
         if !pyTruthy nv then (.jobj (dictSet cs "name" (.jstr (optStr nm'))))
         else (.jobj cs)
       | none => (.jobj (dictSet cs "name" (.jstr (optStr nm')))),
       [Call.api (optStr aid ++ "/campaigns")
         (createCampaignParams (optStr nm') (optStr ob) [] none none none none none none none
           none) "POST"]) := by
    rcases hl : cs.lookup "name" with _ | nv
    · simp only [create_campaign, ha, hn, hob, Bool.false_eq_true, if_false, Option.getD,
        runTool, toolTry, ToolM.bind_apply, ToolM.pure_apply, makeApiRequest, liftE, hcreate,
        pyIn, pyGetAttr, hl, Option.isSome, pySetKey, Bool.not_false, if_true, ite_true,
        Option.getD, Bool.false_eq_true, List.nil_append, List.cons_append, List.append_nil]
    · rcases hq : pyTruthy nv with _ | _
      · simp only [create_campaign, ha, hn, hob, Bool.false_eq_true, if_false, Option.getD,
          runTool, toolTry, ToolM.bind_apply, ToolM.pure_apply, makeApiRequest, liftE, hcreate,
          pyIn, pyGetAttr, hl, Option.isSome, pySetKey, hq, Bool.not_false, if_true,
          ite_true, Option.getD, List.nil_append, List.cons_append, List.append_nil]
      · simp only [create_campaign, ha, hn, hob, Bool.false_eq_true, if_false, Option.getD,
          runTool, toolTry, ToolM.bind_apply, ToolM.pure_apply, makeApiRequest, liftE, hcreate,
          pyIn, pyGetAttr, hl, Option.isSome, pySetKey, hq, Bool.not_true, Bool.false_eq_true,
          if_false, ite_false, if_true, ite_true, Option.getD, List.nil_append, List.cons_append,
          List.append_nil]
  refine ⟨?_, ?_, ?_, ?_⟩
  · rw [hcr]
    rcases hl : cs.lookup "name" with _ | nv
    · simp only [JValue.get?]
      rw [lookup_dictSet_ne _ _ _ _ (by decide)]
    · rcases hq : pyTruthy nv with _ | _
      · simp only [hq, Bool.not_false, if_true, ite_true, JValue.get?]
        rw [lookup_dictSet_ne _ _ _ _ (by decide)]
      · simp only [hq, Bool.not_true, Bool.false_eq_true, if_false, ite_false, JValue.get?]
  · rw [hupd]
    simp only [JValue.get?]
    rw [lookup_dictSet_ne _ _ _ _ (by decide), lookup_dictSet_self]
  · rw [hupd]
    simp only [JValue.get?]
    rw [lookup_dictSet_self]
  · rw [hupd]

/-- A minimal stateless rendering of the vendor server for the round-trip
witness: creating returns id `123`, the update POST succeeds, and the
follow-up GET reports the updated name `X`. -/
def oRoundtrip : Oracle :=
  ⟨fun ep _ m =>
    if ep == "act_1/campaigns" then .ok (.jobj [("id", .jstr "123")])
    else if ep == "123" then
      (if m == "GET" then .ok (.jobj [("name", .jstr "X")])
       else .ok (.jobj [("success", .jbool true)]))
    else .error "unexpected",
   fun _ => .error "unexpected batch", "2026-01-01T00:00:00+0000"⟩

/-- Witness for C8 at the concrete server model: the created id `123`
comes back, and the update response carries `campaign_id = 123` and
`name = "X"`. -/
theorem create_update_campaign_roundtrip_witness :
    blank (some "act_1") = false ∧ (("123" : String) == "") = false ∧
    ((create_campaign oRoundtrip (some "act_1") (some "Summer") (some "OUTCOME_LEADS") none none
        none none none none none none none).1.get? "id" =
      [(("id" : String), JValue.jstr "123")].lookup "id" ∧
     (update_campaign oRoundtrip (some "123") (some "X") none none none none none none none none
        none none).1.get? "campaign_id" = some (.jstr "123") ∧
     (update_campaign oRoundtrip (some "123") (some "X") none none none none none none none none
        none none).1.get? "name" = some (.jstr "X") ∧
     (update_campaign oRoundtrip (some "123") (some "X") none none none none none none none none
        none none).2 =
       [Call.api "123" [("name", .jstr "X")] "POST",
        Call.api "123" [("fields", .jstr "name")] "GET"]) :=
  ⟨rfl, rfl,
   create_update_campaign_roundtrip oRoundtrip (some "act_1") (some "Summer")
     (some "OUTCOME_LEADS") [("id", .jstr "123")] "123" "X" [("success", .jbool true)]
     [("name", .jstr "X")] rfl rfl rfl rfl rfl rfl rfl rfl⟩

/-! ### C7: account-id derivation and campaign counting in the summary -/

/-- C7: the campaign-count account identifier is the first row's
`account_id` with `act_` prepended when missing (passed through when
already present); with no usable row value it falls back to the query's
`object_id` exactly when that starts with `act_`; a `none` derivation
omits the `active_campaigns`/`paused_campaigns` keys and the call still
succeeds with its totals; a failing campaign-count call attaches the
diagnostic under `campaign_count_error` while the totals are still
returned; a successful count attaches both counters.  The traces show the
derived identifier is the one the count call uses. -/
theorem insights_summary_account_derivation (o : Oracle) (oid dp bd lv : String)
    (cids : Option (List String)) (rows : List JValue) (ts : ℚ) (tl : ℤ)
    (hoid : (oid == "") = false)
    (hresp : o.api (oid ++ "/insights") (insightsSummaryParams dp bd lv cids) "GET" =
      .ok (.jobj [("data", .jarr rows)]))
    (hagg : aggregateRows rows = .ok (ts, tl)) :
    (∀ (fs : List (String × JValue)) (s : String) (rest : List JValue) (oid' : String),
      fs.lookup "account_id" = some (.jstr s) → (s != "") = true →
      deriveAccountId (JValue.jobj fs :: rest) oid' =
        .ok (some (if strStarts s "act_" then s else "act_" ++ s))) ∧
    (∀ oid' : String, deriveAccountId [] oid' =
      .ok (if oid' != "" && strStarts oid' "act_" then some oid' else none)) ∧
    (∀ (fs : List (String × JValue)) (rest : List JValue) (oid' : String),
      fs.lookup "account_id" = none →
      deriveAccountId (JValue.jobj fs :: rest) oid' =
        .ok (if oid' != "" && strStarts oid' "act_" then some oid' else none)) ∧
    (deriveAccountId rows oid = .ok none →
      get_insights_summary o (some oid) dp bd lv cids =
        (.jobj [("total_spend", .jnum (pyRound2 ts)), ("total_leads", .jnum (tl : ℚ))],
         [Call.api (oid ++ "/insights") (insightsSummaryParams dp bd lv cids) "GET"])) ∧
    (∀ a e, deriveAccountId rows oid = .ok (some a) →
      o.api (a ++ "/campaigns") campaignCountParams "GET" = .error e →
      get_insights_summary o (some oid) dp bd lv cids =
        (.jobj [("total_spend", .jnum (pyRound2 ts)), ("total_leads", .jnum (tl : ℚ)),
                ("campaign_count_error", campaignCountError e a)],
         [Call.api (oid ++ "/insights") (insightsSummaryParams dp bd lv cids) "GET",
          Call.api (a ++ "/campaigns") campaignCountParams "GET"])) ∧
    (∀ a gs camps ac pc, deriveAccountId rows oid = .ok (some a) →
      o.api (a ++ "/campaigns") campaignCountParams "GET" = .ok (.jobj gs) →
      gs.lookup "data" = some (.jarr camps) →
      countCampaignStatuses cids camps = .ok (ac, pc) →
      get_insights_summary o (some oid) dp bd lv cids =
        (.jobj [("total_spend", .jnum (pyRound2 ts)), ("total_leads", .jnum (tl : ℚ)),
                ("active_campaigns", .jnum (ac : ℚ)), ("paused_campaigns", .jnum (pc : ℚ))],
         [Call.api (oid ++ "/insights") (insightsSummaryParams dp bd lv cids) "GET",
          Call.api (a ++ "/campaigns") campaignCountParams "GET"])) := by
  have hb1 : (("data" : String) == "data") = true := by decide
  have hb2 : (("error" : String) == "data") = false := by decide
  refine ⟨?_, ?_, ?_, ?_, ?_, ?_⟩
  · intro fs s rest oid' h hs
    simp only [deriveAccountId, pyGetAttr, h, hs, if_true, ite_true]
    rfl
  · intro oid'
    rfl
  · intro fs rest oid' h
    simp only [deriveAccountId, pyGetAttr, h]
    rfl
  · intro hder
    simp only [get_insights_summary, blank, hoid, Bool.false_eq_true, if_false, optStr,
      Option.getD, runTool, toolTry, ToolM.bind_apply, ToolM.pure_apply, makeApiRequest, liftE,
      hresp, List.lookup, hb1, hb2, hagg, hder, Option.isSome, List.nil_append,
      List.cons_append, List.append_nil]
  · intro a e hder hcount
    simp only [get_insights_summary, blank, hoid, Bool.false_eq_true, if_false, optStr,
      Option.getD, runTool, toolTry, ToolM.bind_apply, ToolM.pure_apply, makeApiRequest, liftE,
      hresp, List.lookup, hb1, hb2, hagg, hder, hcount, Option.isSome, List.nil_append,
      List.cons_append, List.append_nil]
  · intro a gs camps ac pc hder hcount hdata hcnt
    simp only [get_insights_summary, blank, hoid, Bool.false_eq_true, if_false, optStr,
      Option.getD, runTool, toolTry, ToolM.bind_apply, ToolM.pure_apply, makeApiRequest, liftE,
      hresp, List.lookup, hb1, hb2, hagg, hder, hcount, hdata, hcnt, Option.isSome,
      List.nil_append, List.cons_append, List.append_nil]

/-- The reduction of `>>=` on a successful `Except` step. -/
theorem except_ok_bind {α β : Type} (a : α) (f : α → Except String β) :
    (Except.ok a >>= f : Except String β) = f a := rfl

/-- Fixture rows for the C7 witness: one row whose `account_id` is the
bare string `99`. -/
def rowsC7 : List JValue := [.jobj [("account_id", .jstr "99")]]

/-- Shim environment for the C7 witness: the insights fetch returns
`rowsC7`, the campaign-count call for the derived `act_99` raises. -/
def oC7 : Oracle :=
  ⟨fun ep _ _ =>
    if ep == "c1/insights" then .ok (.jobj [("data", .jarr rowsC7)])
    else if ep == "act_99/campaigns" then .error "boom"
    else .error "unexpected",
   fun _ => .error "unexpected batch", "2026-01-01T00:00:00+0000"⟩

/-- Shim environment for the C7 witness's no-derivation case: the insights
fetch returns no rows for a non-`act_` object id. -/
def oC7none : Oracle :=
  ⟨fun ep _ _ =>
    if ep == "c1/insights" then .ok (.jobj [("data", .jarr [])])
    else .error "unexpected",
   fun _ => .error "unexpected batch", "2026-01-01T00:00:00+0000"⟩

/-- Witness for C7 at concrete inputs: `act_` gets prepended to the first
row's bare account id and the failing count call degrades to
`campaign_count_error`; with no rows and a non-`act_` object id the count
fields are omitted and the totals are still returned. -/
theorem insights_summary_account_derivation_witness :
    (("c1" : String) == "") = false ∧
    oC7.api ("c1" ++ "/insights") (insightsSummaryParams "last_30d" "" "ad" none) "GET" =
      .ok (.jobj [("data", .jarr rowsC7)]) ∧
    aggregateRows rowsC7 = .ok ((0 : ℚ), (0 : ℤ)) ∧
    deriveAccountId rowsC7 "c1" = .ok (some "act_99") ∧
    oC7.api ("act_99" ++ "/campaigns") campaignCountParams "GET" = .error "boom" ∧
    get_insights_summary oC7 (some "c1") "last_30d" "" "ad" none =
      (.jobj [("total_spend", .jnum (pyRound2 0)), ("total_leads", .jnum ((0 : ℤ) : ℚ)),
              ("campaign_count_error", campaignCountError "boom" "act_99")],
       [Call.api ("c1" ++ "/insights") (insightsSummaryParams "last_30d" "" "ad" none) "GET",
        Call.api ("act_99" ++ "/campaigns") campaignCountParams "GET"]) ∧
    deriveAccountId ([] : List JValue) "c1" = .ok none ∧
    get_insights_summary oC7none (some "c1") "last_30d" "" "ad" none =
      (.jobj [("total_spend", .jnum (pyRound2 0)), ("total_leads", .jnum ((0 : ℤ) : ℚ))],
       [Call.api ("c1" ++ "/insights") (insightsSummaryParams "last_30d" "" "ad" none) "GET"]) := by
  have hagg : aggregateRows rowsC7 = .ok ((0 : ℚ), (0 : ℤ)) := by
    simp [aggregateRows, spendOfRecord, leadsOfRecord, pyIn, rowsC7, List.lookup,
      except_ok_bind]
  have haggn : aggregateRows ([] : List JValue) = .ok ((0 : ℚ), (0 : ℤ)) := rfl
  refine ⟨rfl, rfl, hagg, rfl, rfl, ?_, rfl, ?_⟩
  · exact (insights_summary_account_derivation oC7 "c1" "last_30d" "" "ad" none rowsC7 0 0
      rfl rfl hagg).2.2.2.2.1 "act_99" "boom" rfl rfl
  · exact (insights_summary_account_derivation oC7none "c1" "last_30d" "" "ad" none [] 0 0
      rfl rfl haggn).2.2.2.1 rfl

/-! ### C2: aggregation correctness of `get_insights_summary` -/

/-- The claim-side spend contribution of one row: its float-parseable
`spend` value, zero when missing or unparseable. -/
def spendValue (r : JValue) : ℚ :=
  match r.get? "spend" with
  | some v => (pyFloat v).getD 0
  | none => 0

/-- The claim-side spend total: the sum of all float-parseable spend
values. -/
def totalSpendSpec (rows : List JValue) : ℚ := (rows.map spendValue).sum

/-- The claim-side lead contribution of one `actions` entry: its
int-parseable `value` when its `action_type` is `"lead"`, zero
otherwise. -/
def leadValue (a : JValue) : ℤ :=
  match a.get? "action_type" with
  | some (.jstr t) =>
    if t = "lead" then
      match a.get? "value" with
      | some v => (pyInt v).getD 0
      | none => 0
    else 0
  | _ => 0

/-- The claim-side lead contribution of one row (only a list-typed
`actions` is scanned). -/
def leadsValueRow (r : JValue) : ℤ :=
  match r.get? "actions" with
  | some (.jarr xs) => (xs.map leadValue).sum
  | _ => 0

/-- The claim-side lead total. -/
def totalLeadsSpec (rows : List JValue) : ℤ := (rows.map leadsValueRow).sum

/-- Shape of a fetched row set on which the Python aggregation loop cannot
raise: rows are objects and the entries of a list-typed `actions` are
objects.  (A non-dict row or action entry makes the loop itself raise a
`TypeError`/`AttributeError` in the source, which is not about spend/lead
values.) -/
def rowsWellFormed (rows : List JValue) : Prop :=
  ∀ r ∈ rows, ∃ fs, r = JValue.jobj fs ∧
    ∀ xs, fs.lookup "actions" = some (.jarr xs) → ∀ a ∈ xs, ∃ gs, a = JValue.jobj gs

/-- The reduction of `pure` for `Except`. -/
theorem except_pure_eq {α : Type} (a : α) : (pure a : Except String α) = .ok a := rfl

/-- A falsy JSON value float-parses to zero when it parses at all. -/
theorem pyFloat_falsy (v : JValue) (h : pyTruthy v = false) : (pyFloat v).getD 0 = 0 := by
  cases v with
  | jnull => rfl
  | jbool b => cases b with
    | true => simp [pyTruthy] at h
    | false => rfl
  | jnum q =>
    have hq : q = 0 := by simpa [pyTruthy] using h
    subst hq
    rfl
  | jstr s =>
    have hs : s = "" := by simpa [pyTruthy] using h
    subst hs
    rfl
  | jarr xs => rfl
  | jobj fs => rfl

/-- A falsy JSON value int-parses to zero when it parses at all. -/
theorem pyInt_falsy (v : JValue) (h : pyTruthy v = false) : (pyInt v).getD 0 = 0 := by
  cases v with
  | jnull => rfl
  | jbool b => cases b with
    | true => simp [pyTruthy] at h
    | false => rfl
  | jnum q =>
    have hq : q = 0 := by simpa [pyTruthy] using h
    subst hq
    simp [pyInt, ratTrunc]
  | jstr s =>
    have hs : s = "" := by simpa [pyTruthy] using h
    subst hs
    rfl
  | jarr xs => rfl
  | jobj fs => rfl

/-- The loop's spend step agrees with the claim-side contribution on any
object row: the truthiness guard only skips values whose parse is zero
anyway. -/
theorem spendOfRecord_obj (fs : List (String × JValue)) :
    spendOfRecord (.jobj fs) = .ok (spendValue (.jobj fs)) := by
  unfold spendOfRecord spendValue
  rcases hl : fs.lookup "spend" with _ | v
  · simp [pyIn, except_ok_bind, hl, JValue.get?, except_pure_eq]
  · rcases ht : pyTruthy v with _ | _
    · simp [pyIn, except_ok_bind, hl, JValue.get?, pyIndexKey, ht, pyFloat_falsy v ht, except_pure_eq]
    · simp [pyIn, except_ok_bind, hl, JValue.get?, pyIndexKey, ht, except_pure_eq]

/-- The loop's per-action lead step agrees with the claim-side
contribution for object entries. -/
theorem leadsOfActions_spec (xs : List JValue)
    (h : ∀ a ∈ xs, ∃ gs, a = JValue.jobj gs) :
    leadsOfActions xs = .ok ((xs.map leadValue).sum) := by
  induction xs with
  | nil => rfl
  | cons a rest ih =>
    obtain ⟨gs, rfl⟩ := h a (by simp)
    have ihr := ih (fun b hb => h b (by simp [hb]))
    rcases hty : gs.lookup "action_type" with _ | tv
    · simp [leadsOfActions, pyGetAttr, hty, except_ok_bind, ihr, leadValue, JValue.get?, except_pure_eq]
    · rcases tv with _ | b | q | t | ys | hs
      case jstr =>
        by_cases hlead : t = "lead"
        · subst hlead
          rcases hv : gs.lookup "value" with _ | v
          · simp [leadsOfActions, pyGetAttr, hty, hv, except_ok_bind, ihr, leadValue,
              JValue.get?, except_pure_eq]
          · rcases htr : pyTruthy v with _ | _
            · simp [leadsOfActions, pyGetAttr, hty, hv, except_ok_bind, ihr, leadValue,
                JValue.get?, htr, pyInt_falsy v htr, except_pure_eq]
            · simp [leadsOfActions, pyGetAttr, hty, hv, except_ok_bind, ihr, leadValue,
                JValue.get?, htr, except_pure_eq]
        · have hne : (t == "lead") = false := by simpa using hlead
          simp [leadsOfActions, pyGetAttr, hty, hne, except_ok_bind, ihr, leadValue,
            JValue.get?, hlead, except_pure_eq]
      all_goals
        simp [leadsOfActions, pyGetAttr, hty, except_ok_bind, ihr, leadValue, JValue.get?, except_pure_eq]

/-- The loop's per-row lead step agrees with the claim-side row
contribution. -/
theorem leadsOfRecord_obj (fs : List (String × JValue))
    (h : ∀ xs, fs.lookup "actions" = some (.jarr xs) → ∀ a ∈ xs, ∃ gs, a = JValue.jobj gs) :
    leadsOfRecord (.jobj fs) = .ok (leadsValueRow (.jobj fs)) := by
  unfold leadsOfRecord leadsValueRow
  rcases hl : fs.lookup "actions" with _ | av
  · simp [pyIn, except_ok_bind, hl, JValue.get?, except_pure_eq]
  · rcases av with _ | b | q | t | ys | hs <;>
      simp [pyIn, except_ok_bind, hl, JValue.get?, pyIndexKey, except_pure_eq]
    exact leadsOfActions_spec ys (h ys hl)

/-- C2's core equality: on a well-formed row set the aggregation loop
returns exactly the claim-side totals and never raises. -/
theorem aggregateRows_spec (rows : List JValue) (h : rowsWellFormed rows) :
    aggregateRows rows = .ok (totalSpendSpec rows, totalLeadsSpec rows) := by
  induction rows with
  | nil => rfl
  | cons r rest ih =>
    obtain ⟨fs, rfl, hacts⟩ := h r (by simp)
    have ihr := ih (fun b hb => h b (by simp [hb]))
    simp [aggregateRows, spendOfRecord_obj fs, leadsOfRecord_obj fs hacts, except_ok_bind, ihr,
      totalSpendSpec, totalLeadsSpec, except_pure_eq]

/-- Every completed run of `get_insights_summary` on a well-shaped
response reports the two aggregated totals first in its result object,
whatever the campaign-count step adds after them. -/
theorem insights_summary_run (o : Oracle) (oid dp bd lv : String) (cids : Option (List String))
    (rows : List JValue) (ts : ℚ) (tl : ℤ) (acc : Option String)
    (hoid : (oid == "") = false)
    (hresp : o.api (oid ++ "/insights") (insightsSummaryParams dp bd lv cids) "GET" =
      .ok (.jobj [("data", .jarr rows)]))
    (hagg : aggregateRows rows = .ok (ts, tl))
    (hder : deriveAccountId rows oid = .ok acc) :
    ∃ extra, (get_insights_summary o (some oid) dp bd lv cids).1 =
      .jobj (("total_spend", JValue.jnum (pyRound2 ts)) ::
             ("total_leads", JValue.jnum (tl : ℚ)) :: extra) := by
  have hb1 : (("data" : String) == "data") = true := by decide
  have hb2 : (("error" : String) == "data") = false := by decide
  cases acc with
  | none =>
    refine ⟨[], ?_⟩
    simp only [get_insights_summary, blank, hoid, Bool.false_eq_true, if_false, optStr,
      Option.getD, runTool, toolTry, ToolM.bind_apply, ToolM.pure_apply, makeApiRequest, liftE,
      hresp, List.lookup, hb1, hb2, hagg, hder, Option.isSome, List.nil_append,
      List.cons_append, List.append_nil]
  | some a =>
    rcases hc : o.api (a ++ "/campaigns") campaignCountParams "GET" with e | v
    · refine ⟨[("campaign_count_error", campaignCountError e a)], ?_⟩
      simp only [get_insights_summary, blank, hoid, Bool.false_eq_true, if_false, optStr,
        Option.getD, runTool, toolTry, ToolM.bind_apply, ToolM.pure_apply, makeApiRequest, liftE,
        hresp, List.lookup, hb1, hb2, hagg, hder, hc, Option.isSome, List.nil_append,
        List.cons_append, List.append_nil]
    · rcases v with _ | b | q | t | ys | gs
      case jobj =>
        rcases hl : gs.lookup "data" with _ | dv
        · refine ⟨[], ?_⟩
          simp only [get_insights_summary, blank, hoid, Bool.false_eq_true, if_false, optStr,
            Option.getD, runTool, toolTry, ToolM.bind_apply, ToolM.pure_apply, makeApiRequest,
            liftE, hresp, List.lookup, hb1, hb2, hagg, hder, hc, hl, Option.isSome,
            List.nil_append, List.cons_append, List.append_nil]
        · rcases dv with _ | b | q | t | camps | hs
          case jarr =>
            rcases hcnt : countCampaignStatuses cids camps with e | p
            · refine ⟨[("campaign_count_error", campaignCountError e a)], ?_⟩
              simp only [get_insights_summary, blank, hoid, Bool.false_eq_true, if_false,
                optStr, Option.getD, runTool, toolTry, ToolM.bind_apply, ToolM.pure_apply,
                makeApiRequest, liftE, hresp, List.lookup, hb1, hb2, hagg, hder, hc, hl, hcnt,
                Option.isSome, List.nil_append, List.cons_append, List.append_nil]
            · refine ⟨[("active_campaigns", .jnum (p.1 : ℚ)),
                       ("paused_campaigns", .jnum (p.2 : ℚ))], ?_⟩
              simp only [get_insights_summary, blank, hoid, Bool.false_eq_true, if_false,
                optStr, Option.getD, runTool, toolTry, ToolM.bind_apply, ToolM.pure_apply,
                makeApiRequest, liftE, hresp, List.lookup, hb1, hb2, hagg, hder, hc, hl, hcnt,
                Option.isSome, List.nil_append, List.cons_append, List.append_nil]
          all_goals
            refine ⟨[], ?_⟩
            simp only [get_insights_summary, blank, hoid, Bool.false_eq_true, if_false, optStr,
              Option.getD, runTool, toolTry, ToolM.bind_apply, ToolM.pure_apply, makeApiRequest,
              liftE, hresp, List.lookup, hb1, hb2, hagg, hder, hc, hl, Option.isSome,
              List.nil_append, List.cons_append, List.append_nil]
      all_goals
        refine ⟨[], ?_⟩
        simp only [get_insights_summary, blank, hoid, Bool.false_eq_true, if_false, optStr,
          Option.getD, runTool, toolTry, ToolM.bind_apply, ToolM.pure_apply, makeApiRequest,
          liftE, hresp, List.lookup, hb1, hb2, hagg, hder, hc, Option.isSome, List.nil_append,
          List.cons_append, List.append_nil]

/-- Round-half-to-even preserves non-negativity. -/
theorem roundHalfEven_nonneg (q : ℚ) (hq : 0 ≤ q) : 0 ≤ roundHalfEven q := by
  have hf : (0 : ℤ) ≤ ⌊q⌋ := Int.floor_nonneg.mpr hq
  show (0 : ℤ) ≤
    if q - (⌊q⌋ : ℚ) < 1 / 2 then ⌊q⌋
    else if 1 / 2 < q - (⌊q⌋ : ℚ) then ⌊q⌋ + 1
    else if ⌊q⌋ % 2 = 0 then ⌊q⌋ else ⌊q⌋ + 1
  split
  · exact hf
  · split
    · omega
    · split
      · exact hf
      · omega

/-- Rounding to two decimals preserves non-negativity. -/
theorem pyRound2_nonneg (q : ℚ) (hq : 0 ≤ q) : 0 ≤ pyRound2 q := by
  unfold pyRound2
  have h := roundHalfEven_nonneg (q * 100) (by positivity)
  have h' : (0 : ℚ) ≤ (roundHalfEven (q * 100) : ℚ) := by exact_mod_cast h
  positivity

/-- The claim's fixture rows: one parseable row with one lead action, one
row with unparseable spend and no actions. -/
def rowsC2 : List JValue :=
  [.jobj [("spend", .jstr "10.50"),
          ("actions", .jarr [.jobj [("action_type", .jstr "lead"), ("value", .jstr "2")]])],
   .jobj [("spend", .jstr "bad"), ("actions", .jarr [])]]

/-- Shim environment for the C2 instance: the insights fetch returns the
fixture rows (no account id is derivable from them, so no second call is
made). -/
def oC2 : Oracle := oConst (.ok (.jobj [("data", .jarr rowsC2)]))

/-- C2: on a well-formed fetched row set, `get_insights_summary`'s
aggregation never fails and returns `total_spend` equal to the sum of the
float-parseable spend values rounded to two decimals and `total_leads`
equal to the integer sum of the `lead` action values (missing or
non-numeric values contributing zero); both totals are non-negative under
well-formed input; and at the claim's fixture the totals are `10.5` and
`2`. -/
theorem insights_summary_aggregation (o : Oracle) (oid dp bd lv : String)
    (cids : Option (List String)) (rows : List JValue) (acc : Option String)
    (hoid : (oid == "") = false)
    (hresp : o.api (oid ++ "/insights") (insightsSummaryParams dp bd lv cids) "GET" =
      .ok (.jobj [("data", .jarr rows)]))
    (hwf : rowsWellFormed rows)
    (hder : deriveAccountId rows oid = .ok acc) :
    aggregateRows rows = .ok (totalSpendSpec rows, totalLeadsSpec rows) ∧
    (get_insights_summary o (some oid) dp bd lv cids).1.get? "total_spend" =
      some (.jnum (pyRound2 (totalSpendSpec rows))) ∧
    (get_insights_summary o (some oid) dp bd lv cids).1.get? "total_leads" =
      some (.jnum ((totalLeadsSpec rows : ℤ) : ℚ)) ∧
    ((∀ r ∈ rows, 0 ≤ spendValue r) → 0 ≤ pyRound2 (totalSpendSpec rows)) ∧
    ((∀ r ∈ rows, 0 ≤ leadsValueRow r) → 0 ≤ totalLeadsSpec rows) ∧
    totalSpendSpec rowsC2 = 10.5 ∧ totalLeadsSpec rowsC2 = 2 ∧
    (get_insights_summary oC2 (some "c1") "last_30d" "" "ad" none).1 =
      .jobj [("total_spend", .jnum (10.5 : ℚ)), ("total_leads", .jnum (2 : ℚ))] := by
  have hagg := aggregateRows_spec rows hwf
  obtain ⟨extra, hrun⟩ :=
    insights_summary_run o oid dp bd lv cids rows _ _ acc hoid hresp hagg hder
  have hs1 : (("total_spend" : String) == "total_spend") = true := by decide
  have hs2 : (("total_leads" : String) == "total_spend") = false := by decide
  have hs3 : (("total_leads" : String) == "total_leads") = true := by decide
  have hC2spend : totalSpendSpec rowsC2 = 10.5 := by
    simp [totalSpendSpec, rowsC2, spendValue, JValue.get?, List.lookup, pyFloat]
    norm_num [show pyFloatOfString "10.50" =
        some ((1 : ℚ) * (((10 : ℕ) : ℚ) + ((50 : ℕ) : ℚ) / (10 : ℚ) ^ (2 : ℕ))) from rfl,
      show pyFloatOfString "bad" = none from rfl]
  have hC2leads : totalLeadsSpec rowsC2 = 2 := by
    simp [totalLeadsSpec, rowsC2, leadsValueRow, leadValue, JValue.get?, List.lookup, pyInt]
    norm_num [show pyIntOfString "2" = some ((1 : ℤ) * (2 : ℕ)) from rfl]
  have hwfC2 : rowsWellFormed rowsC2 := by
    intro r hr
    simp only [rowsC2, List.mem_cons, List.not_mem_nil, or_false] at hr
    rcases hr with rfl | rfl
    · refine ⟨_, rfl, ?_⟩
      intro xs hxs
      simp [List.lookup] at hxs
      subst hxs
      intro a ha
      simp only [List.mem_singleton] at ha
      subst ha
      exact ⟨_, rfl⟩
    · refine ⟨_, rfl, ?_⟩
      intro xs hxs
      simp [List.lookup] at hxs
      subst hxs
      intro a ha
      simp at ha
  have haggC2 := aggregateRows_spec rowsC2 hwfC2
  have hderC2 : deriveAccountId rowsC2 "c1" = .ok none := rfl
  have hb1 : (("data" : String) == "data") = true := by decide
  have hb2 : (("error" : String) == "data") = false := by decide
  have hb0 : (("c1" : String) == "") = false := by decide
  have hfull : (get_insights_summary oC2 (some "c1") "last_30d" "" "ad" none).1 =
      .jobj [("total_spend", .jnum (pyRound2 (totalSpendSpec rowsC2))),
             ("total_leads", .jnum ((totalLeadsSpec rowsC2 : ℤ) : ℚ))] := by
    simp only [get_insights_summary, blank, runTool, toolTry, ToolM.bind_apply,
      ToolM.pure_apply, makeApiRequest, liftE, oC2, oConst, optStr, Option.getD, List.lookup,
      hb0, hb1, hb2, haggC2, hderC2, Option.isSome, List.nil_append, List.cons_append,
      List.append_nil, Bool.false_eq_true, if_false]
  refine ⟨hagg, ?_, ?_, ?_, ?_, hC2spend, hC2leads, ?_⟩
  · rw [hrun]
    simp only [JValue.get?, List.lookup, hs1]
  · rw [hrun]
    simp only [JValue.get?, List.lookup, hs2, hs3]
  · intro hpos
    exact pyRound2_nonneg _ (List.sum_nonneg (by
      intro x hx
      rcases List.mem_map.mp hx with ⟨r, hr, rfl⟩
      exact hpos r hr))
  · intro hpos
    exact List.sum_nonneg (by
      intro x hx
      rcases List.mem_map.mp hx with ⟨r, hr, rfl⟩
      exact hpos r hr)
  · rw [hfull, hC2spend, hC2leads]
    norm_num [pyRound2, roundHalfEven]

/-- Witness for C2 at the claim's fixture, applying the theorem at the
concrete environment. -/
theorem insights_summary_aggregation_witness :
    (("c1" : String) == "") = false ∧
    oC2.api ("c1" ++ "/insights") (insightsSummaryParams "last_30d" "" "ad" none) "GET" =
      .ok (.jobj [("data", .jarr rowsC2)]) ∧
    deriveAccountId rowsC2 "c1" = .ok none ∧
    (aggregateRows rowsC2 = .ok (totalSpendSpec rowsC2, totalLeadsSpec rowsC2) ∧
     totalSpendSpec rowsC2 = 10.5 ∧ totalLeadsSpec rowsC2 = 2 ∧
     (get_insights_summary oC2 (some "c1") "last_30d" "" "ad" none).1 =
       .jobj [("total_spend", .jnum (10.5 : ℚ)), ("total_leads", .jnum (2 : ℚ))]) := by
  have hwfC2 : rowsWellFormed rowsC2 := by
    intro r hr
    simp only [rowsC2, List.mem_cons, List.not_mem_nil, or_false] at hr
    rcases hr with rfl | rfl
    · refine ⟨_, rfl, ?_⟩
      intro xs hxs
      simp [List.lookup] at hxs
      subst hxs
      intro a ha
      simp only [List.mem_singleton] at ha
      subst ha
      exact ⟨_, rfl⟩
    · refine ⟨_, rfl, ?_⟩
      intro xs hxs
      simp [List.lookup] at hxs
      subst hxs
      intro a ha
      simp at ha
  have h := insights_summary_aggregation oC2 "c1" "last_30d" "" "ad" none rowsC2 none rfl rfl
    hwfC2 rfl
  exact ⟨rfl, rfl, rfl, h.1, h.2.2.2.2.2.1, h.2.2.2.2.2.2.1, h.2.2.2.2.2.2.2⟩

/-! ### C6 and C4: the batched-insights halves of
`get_campaign_data_with_insights` -/

/-- When the deep fetch succeeds and the batch carries at least two
sub-responses whose processing completes, the orchestrator returns the
three-key envelope: the deep structure untouched under `campaign_data`,
and the two independently processed halves. -/
theorem with_insights_reduction (o : Oracle) (aid cid dp cif aif : String) (cdv : JValue)
    (ct : List Call) (civ aiv : JValue) (b0 b1 : BatchItem) (rest : List BatchItem)
    (ha : (aid == "") = false) (hcid : (cid == "") = false) (hcif : (cif == "") = false)
    (haif : (aif == "") = false)
    (hdeep : get_complete_campaign_details_deep o (some aid) (some cid) none = (cdv, ct))
    (hnoerr : pyIn "error" cdv = .ok false)
    (hbatch : o.batchApi (insightsBatchReqs cid cif aif dp) = .ok (b0 :: b1 :: rest))
    (hb0 : processBatchHalf b0 "Failed to parse campaign insights" = .ok civ)
    (hb1 : processBatchHalf b1 "Failed to parse ad insights" = .ok aiv) :
    get_campaign_data_with_insights o (some aid) (some cid) none dp (some cif) (some aif) =
      (.jobj [("campaign_data", cdv), ("campaign_insights", civ), ("ad_insights", aiv)],
       ct ++ [Call.batch (insightsBatchReqs cid cif aif dp)]) := by
  simp only [get_campaign_data_with_insights, blank, ha, hcid, hcif, haif, ncProvided, ncTruthy,
    optStr, Option.getD, runTool, toolTry, ToolM.bind_apply, ToolM.pure_apply,
    makeBatchApiRequest, subTool, liftE, hdeep, hnoerr, hbatch, hb0, hb1, Bool.false_eq_true,
    if_false, Bool.false_and, Bool.and_false, Bool.not_false, if_true, ite_true,
    List.nil_append, List.cons_append, List.append_nil]

/-- C6: a batched sub-response with a non-200 code degrades only its own
half to `{error, details}`; a 200 sub-response whose body fails JSON
parsing degrades only its own half to the parse-failure error; and the
orchestrator still returns the normal three-key envelope with
`campaign_data` and the other half unaffected. -/
theorem with_insights_half_isolation :
    (∀ (b : BatchItem) (msg : String), (b.code == some 200) = false →
      processBatchHalf b msg =
        .ok (.jobj [("error", .jstr ("Batch request failed with code " ++ codeRepr b.code)),
                    ("details", .jstr (b.bodyStr.getD "No response body"))])) ∧
    (∀ (b : BatchItem) (msg : String) (s : String), b.code = some 200 → b.bodyStr = some s →
      b.bodyJson = none → processBatchHalf b msg = .ok (errObj msg)) ∧
    (∀ (o : Oracle) (aid cid dp cif aif : String) (cdv : JValue) (ct : List Call)
       (civ aiv : JValue) (b0 b1 : BatchItem) (rest : List BatchItem),
      (aid == "") = false → (cid == "") = false → (cif == "") = false → (aif == "") = false →
      get_complete_campaign_details_deep o (some aid) (some cid) none = (cdv, ct) →
      pyIn "error" cdv = .ok false →
      o.batchApi (insightsBatchReqs cid cif aif dp) = .ok (b0 :: b1 :: rest) →
      processBatchHalf b0 "Failed to parse campaign insights" = .ok civ →
      processBatchHalf b1 "Failed to parse ad insights" = .ok aiv →
      get_campaign_data_with_insights o (some aid) (some cid) none dp (some cif) (some aif) =
        (.jobj [("campaign_data", cdv), ("campaign_insights", civ), ("ad_insights", aiv)],
         ct ++ [Call.batch (insightsBatchReqs cid cif aif dp)])) := by
  refine ⟨?_, ?_, ?_⟩
  · intro b msg hne
    simp [processBatchHalf, hne]
  · intro b msg s hc hs hj
    simp [processBatchHalf, hc, getBodyParse, hs, hj]
  · intro o aid cid dp cif aif cdv ct civ aiv b0 b1 rest ha hcid hcif haif hdeep hnoerr hbatch
      hb0 hb1
    exact with_insights_reduction o aid cid dp cif aif cdv ct civ aiv b0 b1 rest ha hcid hcif
      haif hdeep hnoerr hbatch hb0 hb1

/-- Shim environment for the C6 witness: a minimal campaign whose deep
fetch succeeds, with a 500-coded first batch half and an unparseable
200-coded second half. -/
def oC6 : Oracle :=
  ⟨fun ep _ _ =>
    if ep == "999" then .ok (.jobj [("id", .jstr "999"), ("name", .jstr "C")])
    else if ep == "999/adsets" then .ok (.jobj [("data", .jarr [])])
    else if ep == "999/ads" then .ok (.jobj [("data", .jarr [])])
    else .error "unexpected",
   fun _ => .ok [⟨some 500, some "oops", none⟩, ⟨some 200, some "notjson", none⟩],
   "2026-01-01T00:00:00+0000"⟩

/-- The deep result of the C6 witness environment. -/
def deepC6 : JValue × List Call :=
  get_complete_campaign_details_deep oC6 (some "act_1") (some "999") none

/-- Witness for C6 at the concrete environment: the non-200 half carries
its `{error, details}`, the unparseable half its parse error, the envelope
is returned normally with the deep structure intact. -/
theorem with_insights_half_isolation_witness :
    ((⟨some 500, some "oops", none⟩ : BatchItem).code == some 200) = false ∧
    (⟨some 200, some "notjson", none⟩ : BatchItem).bodyJson = none ∧
    pyIn "error" deepC6.1 = .ok false ∧
    processBatchHalf ⟨some 500, some "oops", none⟩ "Failed to parse campaign insights" =
      .ok (.jobj [("error", .jstr "Batch request failed with code 500"),
                  ("details", .jstr "oops")]) ∧
    processBatchHalf ⟨some 200, some "notjson", none⟩ "Failed to parse ad insights" =
      .ok (errObj "Failed to parse ad insights") ∧
    get_campaign_data_with_insights oC6 (some "act_1") (some "999") none "last_7d"
        (some "spend") (some "spend") =
      (.jobj [("campaign_data", deepC6.1),
              ("campaign_insights",
               .jobj [("error", .jstr "Batch request failed with code 500"),
                      ("details", .jstr "oops")]),
              ("ad_insights", errObj "Failed to parse ad insights")],
       deepC6.2 ++ [Call.batch (insightsBatchReqs "999" "spend" "spend" "last_7d")]) := by
  refine ⟨rfl, rfl, rfl, ?_, ?_, ?_⟩
  · exact with_insights_half_isolation.1 ⟨some 500, some "oops", none⟩
      "Failed to parse campaign insights" rfl
  · exact with_insights_half_isolation.2.1 ⟨some 200, some "notjson", none⟩
      "Failed to parse ad insights" "notjson" rfl rfl rfl
  · exact with_insights_half_isolation.2.2 oC6 "act_1" "999" "last_7d" "spend" "spend"
      deepC6.1 deepC6.2 _ _ ⟨some 500, some "oops", none⟩ ⟨some 200, some "notjson", none⟩ []
      rfl rfl rfl rfl rfl rfl rfl rfl rfl

/-- The claim-side keep test for one action entry: its `action_type` is a
string among `keep`. -/
def actionKeep (keep : List String) (a : JValue) : Bool :=
  match a.get? "action_type" with
  | some (.jstr t) => keep.contains t
  | _ => false

/-- A `landing_page_view` action entry. -/
def lpvEntry : JValue := .jobj [("action_type", .jstr "landing_page_view"), ("value", .jstr "1")]

/-- An insight row carrying the `landing_page_view` entry in both its
`actions` and its `cost_per_action_type` arrays. -/
def rowC4 : JValue :=
  .jobj [("actions", .jarr [lpvEntry]), ("cost_per_action_type", .jarr [lpvEntry])]

/-- Shim environment for the C4 counterexample: deep fetch succeeds, the
first batch half parses to a single-row envelope containing `rowC4`. -/
def oC4 : Oracle :=
  ⟨fun ep _ _ =>
    if ep == "999" then .ok (.jobj [("id", .jstr "999"), ("name", .jstr "C")])
    else if ep == "999/adsets" then .ok (.jobj [("data", .jarr [])])
    else if ep == "999/ads" then .ok (.jobj [("data", .jarr [])])
    else .error "unexpected",
   fun _ => .ok [⟨some 200, some "j", some (.jobj [("data", .jarr [rowC4])])⟩,
                 ⟨some 200, none, none⟩],
   "2026-01-01T00:00:00+0000"⟩

/-- Counterexample to C4 as stated: the post-filtering does not keep
`landing_page_view` entries in `cost_per_action_type` — at a row carrying
that entry in both arrays, the returned `campaign_insights` keeps it in
`actions` but strips it from `cost_per_action_type` (campaigns.py line 522
filters `cost_per_action_type` with `action_type == "lead"` only). -/
theorem with_insights_cpat_drops_landing_page_view :
    (get_campaign_data_with_insights oC4 (some "act_1") (some "999") none "last_7d"
        (some "spend") (some "spend")).1.get? "campaign_insights" =
      some (.jobj [("data", .jarr [.jobj [("actions", .jarr [lpvEntry]),
                                          ("cost_per_action_type", .jarr [])]])]) := rfl

/-- C4 (amended): for every insight row of either batched sub-result the
post-filtering keeps, in `actions`, exactly the entries whose
`action_type` is `lead` or `landing_page_view`, and, in
`cost_per_action_type`, exactly the entries whose `action_type` is `lead`;
the filtered envelope replaces the row set under its `data` key and the
orchestrator returns the three-key envelope with `campaign_data`
untouched. -/
theorem with_insights_post_filtering :
    (∀ (keep : List String) (al : List JValue), (∀ a ∈ al, ∃ gs, a = JValue.jobj gs) →
      filterActions keep al = .ok (al.filter (actionKeep keep))) ∧
    (∀ (fs : List (String × JValue)) (al cl : List JValue),
      (∀ a ∈ al, ∃ gs, a = JValue.jobj gs) → (∀ a ∈ cl, ∃ gs, a = JValue.jobj gs) →
      fs.lookup "actions" = some (.jarr al) →
      fs.lookup "cost_per_action_type" = some (.jarr cl) →
      filterInsightRow (.jobj fs) =
        .ok (.jobj (dictSet
          (dictSet fs "actions" (.jarr (al.filter (actionKeep ["lead", "landing_page_view"]))))
          "cost_per_action_type" (.jarr (cl.filter (actionKeep ["lead"])))))) ∧
    (∀ (b : BatchItem) (msg : String) (fs : List (String × JValue)) (rows rows' : List JValue),
      b.code = some 200 → getBodyParse b = some (.jobj fs) →
      fs.lookup "data" = some (.jarr rows) → filterInsightRows rows = .ok rows' →
      processBatchHalf b msg = .ok (.jobj (dictSet fs "data" (.jarr rows')))) ∧
    (∀ (o : Oracle) (aid cid dp cif aif : String) (cdv : JValue) (ct : List Call)
       (civ aiv : JValue) (b0 b1 : BatchItem) (rest : List BatchItem),
      (aid == "") = false → (cid == "") = false → (cif == "") = false → (aif == "") = false →
      get_complete_campaign_details_deep o (some aid) (some cid) none = (cdv, ct) →
      pyIn "error" cdv = .ok false →
      o.batchApi (insightsBatchReqs cid cif aif dp) = .ok (b0 :: b1 :: rest) →
      processBatchHalf b0 "Failed to parse campaign insights" = .ok civ →
      processBatchHalf b1 "Failed to parse ad insights" = .ok aiv →
      get_campaign_data_with_insights o (some aid) (some cid) none dp (some cif) (some aif) =
        (.jobj [("campaign_data", cdv), ("campaign_insights", civ), ("ad_insights", aiv)],
         ct ++ [Call.batch (insightsBatchReqs cid cif aif dp)])) := by
  have hfa : ∀ (keep : List String) (al : List JValue),
      (∀ a ∈ al, ∃ gs, a = JValue.jobj gs) →
      filterActions keep al = .ok (al.filter (actionKeep keep)) := by
    intro keep al h
    induction al with
    | nil => rfl
    | cons a rest ih =>
      obtain ⟨gs, rfl⟩ := h a (by simp)
      have ihr := ih (fun b hb => h b (by simp [hb]))
      rcases hk : actionKeep keep (JValue.jobj gs) with _ | _ <;>
        simp only [actionKeep, JValue.get?] at hk <;>
        simp [filterActions, actionTypeIn, pyGetAttr, except_ok_bind, except_pure_eq, ihr,
          List.filter_cons, actionKeep, JValue.get?, hk]
  refine ⟨hfa, ?_, ?_, ?_⟩
  · intro fs al cl hal hcl hla hlc
    have h1 := hfa ["lead", "landing_page_view"] al hal
    have h2 := hfa ["lead"] cl hcl
    have hcne : (("cost_per_action_type" : String) == "actions") = false := by decide
    simp only [filterInsightRow, pyIn, hla, hlc, Option.isSome, except_ok_bind, except_pure_eq,
      if_true, ite_true, pyIndexKey, asList, h1, h2, pySetKey,
      lookup_dictSet_ne fs "actions" "cost_per_action_type" _ hcne]
  · intro b msg fs rows rows' hc hp hdata hrows
    simp only [processBatchHalf, hc, hp, filterInsightsEnvelope, pyIn, hdata, Option.isSome,
      except_ok_bind, except_pure_eq, if_true, ite_true, pyIndexKey, asList, hrows, pySetKey,
      beq_self_eq_true]
  · intro o aid cid dp cif aif cdv ct civ aiv b0 b1 rest ha hcid hcif haif hdeep hnoerr hbatch
      hb0 hb1
    exact with_insights_reduction o aid cid dp cif aif cdv ct civ aiv b0 b1 rest ha hcid hcif
      haif hdeep hnoerr hbatch hb0 hb1

/-- A `lead` action entry. -/
def leadEntry : JValue := .jobj [("action_type", .jstr "lead"), ("value", .jstr "2")]

/-- A `link_click` action entry. -/
def clickEntry : JValue := .jobj [("action_type", .jstr "link_click"), ("value", .jstr "7")]

/-- Witness for C4 (amended) at a concrete row carrying `lead`,
`landing_page_view` and `link_click` entries in both arrays. -/
theorem with_insights_post_filtering_witness :
    (∀ a ∈ [leadEntry, lpvEntry, clickEntry], ∃ gs, a = JValue.jobj gs) ∧
    filterInsightRow (.jobj [("actions", .jarr [leadEntry, lpvEntry, clickEntry]),
                             ("cost_per_action_type", .jarr [leadEntry, lpvEntry, clickEntry])]) =
      .ok (.jobj [("actions", .jarr [leadEntry, lpvEntry]),
                  ("cost_per_action_type", .jarr [leadEntry])]) := by
  have hels : ∀ a ∈ [leadEntry, lpvEntry, clickEntry], ∃ gs, a = JValue.jobj gs := by
    intro a ha
    simp only [List.mem_cons, List.not_mem_nil, or_false] at ha
    rcases ha with rfl | rfl | rfl
    · exact ⟨_, rfl⟩
    · exact ⟨_, rfl⟩
    · exact ⟨_, rfl⟩
  refine ⟨hels, ?_⟩
  have h := with_insights_post_filtering.2.1
    [("actions", .jarr [leadEntry, lpvEntry, clickEntry]),
     ("cost_per_action_type", .jarr [leadEntry, lpvEntry, clickEntry])]
    [leadEntry, lpvEntry, clickEntry] [leadEntry, lpvEntry, clickEntry] hels hels rfl rfl
  rw [h]
  rfl

/-! ### C1: failure semantics of the deep orchestrator -/

/-- Shim environment for the C1 counterexample: one campaign with one ad
set whose detail fetch raises, and no ads. -/
def oC1 : Oracle :=
  ⟨fun ep _ _ =>
    if ep == "777" then .ok (.jobj [("id", .jstr "777"), ("name", .jstr "C")])
    else if ep == "777/adsets" then .ok (.jobj [("data", .jarr [.jobj [("id", .jstr "as1")]])])
    else if ep == "777/ads" then .ok (.jobj [("data", .jarr [])])
    else .error "boom",
   fun _ => .error "unexpected batch", "2026-01-01T00:00:00+0000"⟩

/-- Counterexample to C1 as stated: when the only ad-set detail fetch
fails, the failed item is not omitted from its collection — `adsets.data`
retains the summary row from the list call (the `if detailed_adsets:`
guard at campaigns.py line 400 skips the replacement when every detail
fetch failed), while the error note is appended as claimed. -/
theorem deep_failed_adset_retained :
    (get_complete_campaign_details_deep oC1 (some "act_1") (some "777") none).1.get? "adsets" =
      some (.jobj [("data", .jarr [.jobj [("id", .jstr "as1")]])]) ∧
    (get_complete_campaign_details_deep oC1 (some "act_1") (some "777") none).1.get? "errors" =
      some (.jarr [.jstr "Adset details error for as1: API request failed"]) :=
  ⟨rfl, rfl⟩

/-- Follows the claim's words: the detail results of the ad-set rows whose
detail fetch returned no error, in order. -/
def adsetDetailSuccesses (o : Oracle) (rows : List JValue) : List JValue :=
  rows.filterMap (fun r =>
    match r.get? "id" with
    | some (.jstr s) =>
      if (get_adset_details o (some s)).1.hasKey "error" then none
      else some (get_adset_details o (some s)).1
    | _ => none)

/-- Follows the claim's words: one error note per failed ad-set detail
fetch, in order. -/
def adsetDetailNotes (o : Oracle) (rows : List JValue) : List String :=
  rows.filterMap (fun r =>
    match r.get? "id" with
    | some (.jstr s) =>
      if (get_adset_details o (some s)).1.hasKey "error" then
        some ("Adset details error for " ++ s ++ ": " ++
          pyStr (((get_adset_details o (some s)).1.get? "error").getD (.jstr "Unknown error")))
      else none
    | _ => none)

/-- Follows the claim's words: the concatenated creative lists of the ads
whose creative fetch succeeded with a `data` list, in order. -/
def adCreativeSuccesses (o : Oracle) (rows : List JValue) : List JValue :=
  (rows.map (fun ad =>
    match ad.get? "id" with
    | some (.jstr s) =>
      if !(get_ad_creatives o (some s)).1.hasKey "error" &&
          (get_ad_creatives o (some s)).1.hasKey "data" then
        match (get_ad_creatives o (some s)).1.get? "data" with
        | some (.jarr xs) => xs
        | _ => []
      else []
    | _ => [])).join

/-- Follows the claim's words: one error note per failed creative fetch,
in order. -/
def adCreativeNotes (o : Oracle) (rows : List JValue) : List String :=
  rows.filterMap (fun ad =>
    match ad.get? "id" with
    | some (.jstr s) =>
      if !(get_ad_creatives o (some s)).1.hasKey "error" &&
          (get_ad_creatives o (some s)).1.hasKey "data" then none
      else some ("Ad creatives error for ad " ++ s ++ ": " ++
        pyStr (((get_ad_creatives o (some s)).1.get? "error").getD (.jstr "Unknown error")))
    | _ => none)

/-- The per-row hypotheses of the step-3 loop: each listed ad-set row is
an object with a string `id` whose detail fetch returns an object (as the
decorated tool produces on every path relevant here). -/
def adsetRowsFetchable (o : Oracle) (rows : List JValue) : Prop :=
  ∀ r ∈ rows, ∃ fs s gs, r = JValue.jobj fs ∧ fs.lookup "id" = some (.jstr s) ∧
    (get_adset_details o (some s)).1 = .jobj gs

/-- The per-row hypotheses of the step-4 loop: each listed ad is an object
with a string `id` whose creative fetch returns an object whose `data`,
when present without an `error`, is a list. -/
def adRowsFetchable (o : Oracle) (rows : List JValue) : Prop :=
  ∀ r ∈ rows, ∃ fs s gs, r = JValue.jobj fs ∧ fs.lookup "id" = some (.jstr s) ∧
    (get_ad_creatives o (some s)).1 = .jobj gs ∧
    (gs.lookup "error" = none → ∀ v, gs.lookup "data" = some v → ∃ xs, v = .jarr xs)

/-- The step-3 per-item loop never raises on well-shaped rows and returns
exactly the successful details and one note per failure. -/
theorem adsetDetailFold_spec (o : Oracle) (rows : List JValue)
    (hrows : adsetRowsFetchable o rows) (t : List Call) :
    ∃ t', adsetDetailFold o rows t =
      (.ok (adsetDetailSuccesses o rows, adsetDetailNotes o rows), t') := by
  induction rows generalizing t with
  | nil => exact ⟨t, rfl⟩
  | cons r rest ih =>
    obtain ⟨fs, s, gs, rfl, hid, hgs⟩ := hrows r (by simp)
    obtain ⟨t', ht'⟩ := ih (fun b hb => hrows b (by simp [hb]))
      (t ++ (get_adset_details o (some s)).2)
    rcases hae : gs.lookup "error" with _ | ev
    · refine ⟨t', ?_⟩
      simp only [adsetDetailFold, ToolM.bind_apply, ToolM.pure_apply, liftE, subTool,
        pyIndexKey, hid, asStr, pyIn, hgs, hae, Option.isSome, Bool.false_eq_true, if_false,
        ht', adsetDetailSuccesses, adsetDetailNotes, List.filterMap_cons, JValue.get?,
        JValue.hasKey]
    · refine ⟨t', ?_⟩
      simp only [adsetDetailFold, ToolM.bind_apply, ToolM.pure_apply, liftE, subTool,
        pyIndexKey, hid, asStr, pyIn, hgs, hae, Option.isSome, if_true, ite_true, pyGetAttrD,
        Option.getD, ht', adsetDetailSuccesses, adsetDetailNotes, List.filterMap_cons,
        JValue.get?, JValue.hasKey, pyStr]

/-- The step-4 per-item loop never raises on well-shaped rows and returns
exactly the concatenated creative successes and one note per failure. -/
theorem creativeFold_spec (o : Oracle) (rows : List JValue)
    (hrows : adRowsFetchable o rows) (t : List Call) :
    ∃ t', creativeFold o rows t =
      (.ok (adCreativeSuccesses o rows, adCreativeNotes o rows), t') := by
  induction rows generalizing t with
  | nil => exact ⟨t, rfl⟩
  | cons r rest ih =>
    obtain ⟨fs, s, gs, rfl, hid, hgs, hdat⟩ := hrows r (by simp)
    obtain ⟨t', ht'⟩ := ih (fun b hb => hrows b (by simp [hb]))
      (t ++ (get_ad_creatives o (some s)).2)
    rcases hae : gs.lookup "error" with _ | ev
    · rcases hda : gs.lookup "data" with _ | dv
      · refine ⟨t', ?_⟩
        simp only [creativeFold, ToolM.bind_apply, ToolM.pure_apply, liftE, subTool,
          pyIndexKey, hid, asStr, pyIn, hgs, hae, hda, Option.isSome, Bool.false_eq_true,
          if_false, Bool.not_false, Bool.true_and, Bool.and_true, Bool.false_and,
          Bool.and_false, pyGetAttrD, Option.getD, ht', adCreativeSuccesses, adCreativeNotes,
          List.filterMap_cons, List.map_cons, List.join, List.flatten_cons, List.flatten_nil,
          List.nil_append, List.append_nil, JValue.get?, JValue.hasKey, pyStr,
          if_true, ite_true]
      · obtain ⟨xs, rfl⟩ := hdat hae dv hda
        refine ⟨t', ?_⟩
        simp only [creativeFold, ToolM.bind_apply, ToolM.pure_apply, liftE, subTool,
          pyIndexKey, hid, asStr, pyIn, hgs, hae, hda, Option.isSome, Bool.false_eq_true,
          if_false, Bool.not_false, Bool.true_and, asList, ht', adCreativeSuccesses,
          adCreativeNotes, List.filterMap_cons, List.map_cons, List.join, List.flatten_cons, List.flatten_nil,
          List.nil_append, List.append_nil, JValue.get?,
          JValue.hasKey, if_true, ite_true]
    · refine ⟨t', ?_⟩
      simp only [creativeFold, ToolM.bind_apply, ToolM.pure_apply, liftE, subTool, pyIndexKey,
        hid, asStr, pyIn, hgs, hae, Option.isSome, if_true, ite_true, Bool.not_true,
        Bool.false_and, Bool.false_eq_true, if_false, pyGetAttrD, Option.getD, ht',
        adCreativeSuccesses, adCreativeNotes, List.filterMap_cons, List.map_cons, List.join,
        List.flatten_cons, List.flatten_nil, List.nil_append, List.append_nil, JValue.get?,
        JValue.hasKey, pyStr]

/-- Step 3 on a successful list call whose truthy `data` holds well-shaped
rows: the collected notes are one per failed detail fetch, and `data` is
replaced by the successful details exactly when at least one detail fetch
succeeded — otherwise the list call's summary rows are retained. -/
theorem deepAdsetsPhase_spec (o : Oracle) (aid : Option String) (acid : String)
    (fs : List (String × JValue)) (rows : List JValue) (t : List Call)
    (hls : (get_adsets o aid 10 acid).1 = .jobj fs)
    (hne : fs.lookup "error" = none)
    (hda : fs.lookup "data" = some (.jarr rows))
    (hnz : rows.isEmpty = false)
    (hrows : adsetRowsFetchable o rows) :
    (deepAdsetsPhase o aid acid t).1 =
      .ok ((if (adsetDetailSuccesses o rows).isEmpty then .jobj fs
            else .jobj (dictSet fs "data" (.jarr (adsetDetailSuccesses o rows)))),
           adsetDetailNotes o rows) := by
  obtain ⟨t', ht'⟩ := adsetDetailFold_spec o rows hrows (t ++ (get_adsets o aid 10 acid).2)
  rcases hb : (adsetDetailSuccesses o rows).isEmpty with _ | _
  · simp only [deepAdsetsPhase, ToolM.bind_apply, ToolM.pure_apply, liftE, subTool, hls,
      pyIn, hne, hda, pyIndexKey, pyTruthy, asList, hnz, Option.isSome, Bool.false_eq_true,
      if_false, ite_false, Bool.not_false, Bool.true_and, Bool.and_true, if_true, ite_true,
      ht', hb, pySetKey]
  · simp only [deepAdsetsPhase, ToolM.bind_apply, ToolM.pure_apply, liftE, subTool, hls,
      pyIn, hne, hda, pyIndexKey, pyTruthy, asList, hnz, Option.isSome, Bool.false_eq_true,
      if_false, ite_false, Bool.not_false, Bool.not_true, Bool.true_and, Bool.and_true,
      if_true, ite_true, ht', hb, pySetKey]

/-- Step 4 on a successful list call whose truthy `data` holds well-shaped
ads: the `ads` value is the list response untouched, `ad_creatives` is the
concatenation over the ads whose creative fetch succeeded (a failed ad
contributes nothing to the collection), and the notes are one per
failure. -/
theorem deepAdsPhase_spec (o : Oracle) (aid : Option String) (acid : String)
    (fs : List (String × JValue)) (rows : List JValue) (t : List Call)
    (hls : (get_ads o aid acid).1 = .jobj fs)
    (hne : fs.lookup "error" = none)
    (hda : fs.lookup "data" = some (.jarr rows))
    (hnz : rows.isEmpty = false)
    (hrows : adRowsFetchable o rows) :
    (deepAdsPhase o aid acid t).1 =
      .ok (.jobj fs, .jobj [("data", .jarr (adCreativeSuccesses o rows))],
           adCreativeNotes o rows) := by
  obtain ⟨t', ht'⟩ := creativeFold_spec o rows hrows (t ++ (get_ads o aid acid).2)
  simp only [deepAdsPhase, ToolM.bind_apply, ToolM.pure_apply, liftE, subTool, hls,
    pyIn, hne, hda, pyIndexKey, pyTruthy, asList, hnz, Option.isSome, Bool.false_eq_true,
    if_false, ite_false, Bool.not_false, Bool.true_and, Bool.and_true, if_true, ite_true, ht']

/-- Steps 1-2, fetch failure: when the campaign fetch itself reports an
error, the deep orchestrator returns that error object alone. -/
theorem deep_step12_fetch_error (o : Oracle) (aid cid nc : Option String)
    (gs : List (String × JValue)) (ev : JValue)
    (ha : blank aid = false) (hc : (blank cid && !ncProvided nc) = false)
    (hcd : (get_campaign_details o aid cid nc).1 = .jobj gs)
    (herr : gs.lookup "error" = some ev) :
    (get_complete_campaign_details_deep o aid cid nc).1 = .jobj gs := by
  simp only [get_complete_campaign_details_deep, runTool, ToolM.bind_apply, ToolM.pure_apply,
    liftE, subTool, ha, hc, Bool.false_eq_true, if_false, ite_false, hcd, pyIn, herr,
    Option.isSome, if_true, ite_true]

/-- Steps 1-2, resolution failure: when the fetched payload carries no
error but the resolution step rejects it (not found, or an ambiguous
name-substring match), the deep orchestrator returns that error object
alone. -/
theorem deep_step12_resolve_error (o : Oracle) (aid cid nc : Option String)
    (gs : List (String × JValue)) (e : JValue)
    (ha : blank aid = false) (hc : (blank cid && !ncProvided nc) = false)
    (hcd : (get_campaign_details o aid cid nc).1 = .jobj gs)
    (hne : gs.lookup "error" = none)
    (hres : deepResolveCampaign (.jobj gs) cid nc = .ok (.error e)) :
    (get_complete_campaign_details_deep o aid cid nc).1 = e := by
  simp only [get_complete_campaign_details_deep, runTool, ToolM.bind_apply, ToolM.pure_apply,
    liftE, subTool, ha, hc, Bool.false_eq_true, if_false, ite_false, hcd, pyIn, hne, hres,
    Option.isSome, if_true, ite_true]

/-- Step 5 composition: when both fan-out phases return normally, the deep
body is exactly the assembled envelope over the concatenated notes. -/
theorem deepBody_assemble (o : Oracle) (aid : Option String) (acid : String)
    (cd av bv cv : JValue) (an bn : List String) (t : List Call)
    (hA : (deepAdsetsPhase o aid acid t).1 = .ok (av, an))
    (hB : (deepAdsPhase o aid acid (deepAdsetsPhase o aid acid t).2).1 = .ok (bv, cv, bn)) :
    (deepBody o aid acid cd t).1 = .ok (deepAssemble cd av bv cv (an ++ bn)) := by
  rcases hA' : deepAdsetsPhase o aid acid t with ⟨ra, t1⟩
  rcases hB' : deepAdsPhase o aid acid t1 with ⟨rb, t2⟩
  rw [hA'] at hA hB
  rw [hB'] at hB
  simp only at hA hB
  subst hA hB
  simp only [deepBody, ToolM.bind_apply, ToolM.pure_apply, hA', hB']

/-- Steps 3-5 on a successfully resolved campaign: the deep orchestrator
returns whatever the body assembled. -/
theorem deep_success_is_body (o : Oracle) (aid cid nc : Option String)
    (gs : List (String × JValue)) (p : JValue × String) (v : JValue)
    (ha : blank aid = false) (hc : (blank cid && !ncProvided nc) = false)
    (hcd : get_campaign_details o aid cid nc = (.jobj gs, tc))
    (hne : gs.lookup "error" = none)
    (hres : deepResolveCampaign (.jobj gs) cid nc = .ok (.ok p))
    (hbody : deepBody o aid p.2 p.1 tc = (.ok v, t')) :
    (get_complete_campaign_details_deep o aid cid nc).1 = v := by
  simp only [get_complete_campaign_details_deep, runTool, ToolM.bind_apply, ToolM.pure_apply,
    liftE, subTool, ha, hc, Bool.false_eq_true, if_false, ite_false, hcd, pyIn, hne, hres,
    Option.isSome, List.nil_append, hbody, if_true, ite_true]

/-- The assembled envelope carries an `errors` key exactly when some note
was collected, and then it is the array of the notes. -/
theorem deepAssemble_errors (c a b cr : JValue) (errs : List String) :
    (deepAssemble c a b cr errs).get? "errors" =
      (if errs.isEmpty then none else some (.jarr (errs.map .jstr))) := by
  rcases errs with _ | ⟨e, es⟩ <;>
    simp [deepAssemble, JValue.get?, List.lookup, List.isEmpty]

/-- Shim environment for the step-4 witness: a campaign with two ads, the
first ad's creative fetch succeeding and the second raising. -/
def oC1ads : Oracle :=
  ⟨fun ep _ _ =>
    if ep == "9/ads" then
      .ok (.jobj [("data", .jarr [.jobj [("id", .jstr "ad1")], .jobj [("id", .jstr "ad2")]])])
    else if ep == "ad1/adcreatives" then
      .ok (.jobj [("data", .jarr [.jobj [("id", .jstr "cr1")]])])
    else .error "boom",
   fun _ => .error "unexpected batch", "2026-01-01T00:00:00+0000"⟩

/-- C1 (amended): in `get_complete_campaign_details_deep`, a step-1/2
failure — the campaign fetch reporting an error, or the resolution step
rejecting the payload — makes the whole call return that error object
alone.  A failing per-item sub-call in step 3/4 never aborts the call:
each failure appends one note to the errors list; a failed creative fetch
contributes nothing to `ad_creatives`; but failed ad-set detail fetches
are dropped from `adsets.data` only when at least one detail fetch
succeeded — when every one of them fails, the summary rows from the list
call are retained rather than omitted (contra the claim's wording).  On a
resolved campaign the call returns the assembled envelope, which carries
the `errors` key exactly when some note was collected. -/
theorem deep_failure_isolation (o : Oracle) :
    (∀ aid cid nc gs ev, blank aid = false → (blank cid && !ncProvided nc) = false →
       (get_campaign_details o aid cid nc).1 = .jobj gs →
       gs.lookup "error" = some ev →
       (get_complete_campaign_details_deep o aid cid nc).1 = .jobj gs) ∧
    (∀ aid cid nc gs e, blank aid = false → (blank cid && !ncProvided nc) = false →
       (get_campaign_details o aid cid nc).1 = .jobj gs →
       gs.lookup "error" = none →
       deepResolveCampaign (.jobj gs) cid nc = .ok (.error e) →
       (get_complete_campaign_details_deep o aid cid nc).1 = e) ∧
    (∀ aid acid fs rows t,
       (get_adsets o aid 10 acid).1 = .jobj fs →
       fs.lookup "error" = none → fs.lookup "data" = some (.jarr rows) →
       rows.isEmpty = false → adsetRowsFetchable o rows →
       (deepAdsetsPhase o aid acid t).1 =
         .ok ((if (adsetDetailSuccesses o rows).isEmpty then .jobj fs
               else .jobj (dictSet fs "data" (.jarr (adsetDetailSuccesses o rows)))),
              adsetDetailNotes o rows)) ∧
    (∀ aid acid fs rows t,
       (get_ads o aid acid).1 = .jobj fs →
       fs.lookup "error" = none → fs.lookup "data" = some (.jarr rows) →
       rows.isEmpty = false → adRowsFetchable o rows →
       (deepAdsPhase o aid acid t).1 =
         .ok (.jobj fs, .jobj [("data", .jarr (adCreativeSuccesses o rows))],
              adCreativeNotes o rows)) ∧
    (∀ aid acid cd av bv cv an bn t,
       (deepAdsetsPhase o aid acid t).1 = .ok (av, an) →
       (deepAdsPhase o aid acid (deepAdsetsPhase o aid acid t).2).1 = .ok (bv, cv, bn) →
       (deepBody o aid acid cd t).1 = .ok (deepAssemble cd av bv cv (an ++ bn))) ∧
    (∀ aid cid nc gs p v tc t',
       blank aid = false → (blank cid && !ncProvided nc) = false →
       get_campaign_details o aid cid nc = (.jobj gs, tc) →
       gs.lookup "error" = none →
       deepResolveCampaign (.jobj gs) cid nc = .ok (.ok p) →
       deepBody o aid p.2 p.1 tc = (.ok v, t') →
       (get_complete_campaign_details_deep o aid cid nc).1 = v) ∧
    (∀ c a b cr errs, (deepAssemble c a b cr errs).get? "errors" =
       (if errs.isEmpty then none else some (.jarr (errs.map .jstr)))) := by
  refine ⟨?_, ?_, ?_, ?_, ?_, ?_, ?_⟩
  · exact fun aid cid nc gs ev ha hc hcd herr =>
      deep_step12_fetch_error o aid cid nc gs ev ha hc hcd herr
  · exact fun aid cid nc gs e ha hc hcd hne hres =>
      deep_step12_resolve_error o aid cid nc gs e ha hc hcd hne hres
  · exact fun aid acid fs rows t hls hne hda hnz hrows =>
      deepAdsetsPhase_spec o aid acid fs rows t hls hne hda hnz hrows
  · exact fun aid acid fs rows t hls hne hda hnz hrows =>
      deepAdsPhase_spec o aid acid fs rows t hls hne hda hnz hrows
  · exact fun aid acid cd av bv cv an bn t hA hB =>
      deepBody_assemble o aid acid cd av bv cv an bn t hA hB
  · exact fun aid cid nc gs p v tc t' ha hc hcd hne hres hbody =>
      deep_success_is_body o aid cid nc gs p v ha hc hcd hne hres hbody
  · exact fun c a b cr errs => deepAssemble_errors c a b cr errs

/-- Witness for C1 at concrete shim environments: a raising campaign fetch
is returned alone; an ambiguous two-match search is returned alone; the
all-fail ad-set phase retains the summary row and notes the failure; the
ads phase keeps only the successful ad's creatives and notes the failed
one; the body assembles the envelope; the full deep call on the one-bad-ad-set
fixture returns that envelope, `errors` key included. -/
theorem deep_failure_isolation_witness :
    (get_complete_campaign_details_deep (oConst (.error "down")) (some "a") (some "7")
        none).1 = .jobj [("error", .jstr "API request failed"), ("details", .jstr "down")] ∧
    (get_complete_campaign_details_deep (oConst (.ok (twoCampaignFixture "A" "B")))
        (some "a") none (some "Q")).1 = errObj (searchAmbiguityMsg 2 ["A", "B"]) ∧
    (deepAdsetsPhase oC1 (some "act_1") "777" []).1 =
      .ok (.jobj [("data", .jarr [.jobj [("id", .jstr "as1")]])],
           ["Adset details error for as1: API request failed"]) ∧
    (deepAdsPhase oC1ads (some "act_1") "9" []).1 =
      .ok (.jobj [("data", .jarr [.jobj [("id", .jstr "ad1")], .jobj [("id", .jstr "ad2")]])],
           .jobj [("data", .jarr [.jobj [("id", .jstr "cr1")]])],
           ["Ad creatives error for ad ad2: API request failed"]) ∧
    (deepBody oC1 (some "act_1") "777" (.jobj [("id", .jstr "777"), ("name", .jstr "C")])
        []).1 =
      .ok (deepAssemble (.jobj [("id", .jstr "777"), ("name", .jstr "C")])
            (.jobj [("data", .jarr [.jobj [("id", .jstr "as1")]])])
            (.jobj [("data", .jarr []), ("error", .jstr "No ads found")])
            (.jobj [("data", .jarr []), ("error", .jstr "No ads available to retrieve creatives")])
            ["Adset details error for as1: API request failed"]) ∧
    (get_complete_campaign_details_deep oC1 (some "act_1") (some "777") none).1 =
      .jobj [("campaign", .jobj [("data", .jarr [.jobj [("id", .jstr "777"), ("name", .jstr "C")]])]),
             ("adsets", .jobj [("data", .jarr [.jobj [("id", .jstr "as1")]])]),
             ("ads", .jobj [("data", .jarr []), ("error", .jstr "No ads found")]),
             ("ad_creatives", .jobj [("data", .jarr []),
               ("error", .jstr "No ads available to retrieve creatives")]),
             ("errors", .jarr [.jstr "Adset details error for as1: API request failed"])] ∧
    (deepAssemble .jnull .jnull .jnull .jnull ["x"]).get? "errors" =
      some (.jarr [.jstr "x"]) := by
  refine ⟨?_, ?_, ?_, ?_, ?_, ?_, ?_⟩
  · exact (deep_failure_isolation (oConst (.error "down"))).1 (some "a") (some "7") none
      [("error", .jstr "API request failed"), ("details", .jstr "down")]
      (.jstr "API request failed") rfl rfl rfl rfl
  · exact (deep_failure_isolation (oConst (.ok (twoCampaignFixture "A" "B")))).2.1
      (some "a") none (some "Q")
      [("data", .jarr [.jobj [("id", .jstr "c1"), ("name", .jstr "A")],
                       .jobj [("id", .jstr "c2"), ("name", .jstr "B")]])]
      (errObj (searchAmbiguityMsg 2 ["A", "B"])) rfl rfl rfl rfl rfl
  · exact (deep_failure_isolation oC1).2.2.1 (some "act_1") "777"
      [("data", .jarr [.jobj [("id", .jstr "as1")]])] [.jobj [("id", .jstr "as1")]] []
      rfl rfl rfl rfl
      (fun r hr => by
        rw [List.mem_singleton] at hr
        subst hr
        exact ⟨[("id", .jstr "as1")], "as1",
          [("error", .jstr "API request failed"), ("details", .jstr "boom")], rfl, rfl, rfl⟩)
  · exact (deep_failure_isolation oC1ads).2.2.2.1 (some "act_1") "9"
      [("data", .jarr [.jobj [("id", .jstr "ad1")], .jobj [("id", .jstr "ad2")]])]
      [.jobj [("id", .jstr "ad1")], .jobj [("id", .jstr "ad2")]] []
      rfl rfl rfl rfl
      (fun r hr => by
        rw [List.mem_cons, List.mem_singleton] at hr
        rcases hr with rfl | rfl
        · exact ⟨[("id", .jstr "ad1")], "ad1", [("data", .jarr [.jobj [("id", .jstr "cr1")]])],
            rfl, rfl, rfl, fun _ v hv => by cases hv; exact ⟨_, rfl⟩⟩
        · exact ⟨[("id", .jstr "ad2")], "ad2",
            [("error", .jstr "API request failed"), ("details", .jstr "boom")],
            rfl, rfl, rfl, fun h => nomatch h⟩)
  · exact (deep_failure_isolation oC1).2.2.2.2.1 (some "act_1") "777"
      (.jobj [("id", .jstr "777"), ("name", .jstr "C")])
      (.jobj [("data", .jarr [.jobj [("id", .jstr "as1")]])])
      (.jobj [("data", .jarr []), ("error", .jstr "No ads found")])
      (.jobj [("data", .jarr []), ("error", .jstr "No ads available to retrieve creatives")])
      ["Adset details error for as1: API request failed"] [] []
      rfl rfl
  · exact (deep_failure_isolation oC1).2.2.2.2.2.1 (some "act_1") (some "777") none
      [("id", .jstr "777"), ("name", .jstr "C")]
      (.jobj [("data", .jarr [.jobj [("id", .jstr "777"), ("name", .jstr "C")]])], "777")
      (.jobj [("campaign", .jobj [("data", .jarr [.jobj [("id", .jstr "777"), ("name", .jstr "C")]])]),
              ("adsets", .jobj [("data", .jarr [.jobj [("id", .jstr "as1")]])]),
              ("ads", .jobj [("data", .jarr []), ("error", .jstr "No ads found")]),
              ("ad_creatives", .jobj [("data", .jarr []),
                ("error", .jstr "No ads available to retrieve creatives")]),
              ("errors", .jarr [.jstr "Adset details error for as1: API request failed"])])
      [Call.api "777" [("fields", .jstr campaignDetailsFields)] "GET"]
      [Call.api "777" [("fields", .jstr campaignDetailsFields)] "GET",
       Call.api "777/adsets" [("fields", .jstr adsetsListFields),
         ("limit", .jnum ((10 : ℤ) : ℚ))] "GET",
       Call.api "as1" [("fields", .jstr adsetDetailsFields)] "GET",
       Call.api "777/ads" [("fields", .jstr "id,name,adset_id,campaign_id,status,creative")]
         "GET"]
      rfl rfl rfl rfl rfl rfl
  · exact (deep_failure_isolation oC1).2.2.2.2.2.2 .jnull .jnull .jnull .jnull ["x"]

end MetaAds
